import Mathlib

/-
  Verification of the Deassimilation migration engine
  (deassimilateUtils/DeassimilateProcess.py, deassimilateUtils/DirectoryWalker.py).

  The Python sources are shallowly embedded: strings stay strings, Python
  `pathlib`/`os.path` operations are modelled character-wise, the target
  filesystem is a set of existing paths plus an oracle for the OS errors that
  do not come from an already-existing destination, and `raise` is modelled
  with `Except`.  Machine-irrelevant debug logging is abstracted to tagged
  log entries emitted only when a logger was supplied, exactly as the
  `if logger is not None:` guards do in the source.
-/

namespace Deassim

/- ## Character-level string helpers (Python semantics, structurally recursive) -/

/-- Split a character list on a separator character; groups may be empty,
mirroring Python `str.split("/")`. -/
def splitChar (sep : Char) : List Char → List (List Char)
  | [] => [[]]
  | x :: xs =>
    match splitChar sep xs with
    | [] => [[]]
    | g :: gs => if x = sep then [] :: g :: gs else (x :: g) :: gs

/-- The components of a POSIX path as `pathlib` keeps them: split on `/`,
dropping empty components and `"."` (PurePosixPath normalization). -/
def pathParts (s : String) : List String :=
  ((splitChar '/' s.toList).map (fun g => String.mk g)).filter
    (fun c => c != "" && c != ".")

/-- Whether the path is absolute (leading `/`). -/
def pathIsAbs (s : String) : Bool :=
  match s.toList with
  | '/' :: _ => true
  | _ => false

/-- Render an (absolute?, components) pair the way `str(PurePosixPath ...)`
does: `"."` for an empty relative path, `"/"` for the root. -/
def pathStr (abs : Bool) (parts : List String) : String :=
  match parts with
  | [] => if abs then "/" else "."
  | p :: rest =>
    (if abs then "/" else "") ++
      (List.foldl (fun acc q => acc ++ "/" ++ q) p rest)

/-- Python `str.lstrip("/")`: drop every leading slash. -/
def lstripSlashes (s : String) : String :=
  String.mk (s.toList.dropWhile (fun c => c == '/'))

/-- Python `str.rstrip("/")`: drop every trailing slash. -/
def rstripSlashes (s : String) : String :=
  String.mk ((s.toList.reverse.dropWhile (fun c => c == '/')).reverse)

/-- Whether the string ends with a slash (Python `str.endswith("/")`). -/
def endsWithSlash (s : String) : Bool :=
  match s.toList.getLast? with
  | some '/' => true
  | _ => false

/-- `os.path.join` for two POSIX components: an absolute second argument
replaces the first, otherwise the parts are glued with a single `/`. -/
def pjoin (a b : String) : String :=
  if pathIsAbs b then b
  else if a = "" then b
  else if endsWithSlash a then a ++ b
  else a ++ "/" ++ b

/-- `PurePosixPath(s).name`: the last component after normalization
(empty for the root or an empty path). -/
def pyName (s : String) : String :=
  ((pathParts s).getLast?).getD ""

/-- `PurePosixPath.suffix` of a final component: the substring from the last
dot on, provided that dot is neither the first nor the last character. -/
def pySuffixOfName (name : String) : String :=
  let cs := name.toList
  match cs.reverse.findIdx? (fun c => c == '.') with
  | none => ""
  | some j =>
    let i := cs.length - 1 - j
    if 0 < i ∧ i < cs.length - 1 then String.mk (cs.drop i) else ""

/-- `PurePosixPath(s).suffix`. -/
def pySuffix (s : String) : String :=
  pySuffixOfName (pyName s)

/-- Python `str.lower()`, character-wise. -/
def strLower (s : String) : String :=
  String.mk (s.toList.map Char.toLower)

/-- `Path(p).suffix.lower()` — the statistics key used by the file loop. -/
def extOf (p : String) : String :=
  strLower (pySuffix p)

/-- Python `str.replace("?", "_TEMPQMARK_")` specialised to the sentinel
character, replacing every occurrence. -/
def replaceQMark : List Char → List Char
  | [] => []
  | c :: rest =>
    (if c = '?' then "_TEMPQMARK_".toList else [c]) ++ replaceQMark rest

/-- `PurePosixPath(path).with_name(n)`: same parent, new final component. -/
def pyWithName (path n : String) : String :=
  pathStr (pathIsAbs path) ((pathParts path).dropLast ++ [n])

/- ## stat(2) model and `get_filetype` -/

/-- The fields of an `os.stat_result` that the migration engine reads. -/
structure Stat where
  st_mode : Nat
  st_size : Nat
  st_uid : Nat
  st_gid : Nat
  st_atime : Nat
  st_mtime : Nat
  deriving Repr, DecidableEq

/-- `stat.S_IFMT`: the four file-type bits of `st_mode`
(`m & 0o170000`, written with division to stay kernel-reducible). -/
def S_IFMT (m : Nat) : Nat := m / 4096 % 16 * 4096

/-- `stat.S_IMODE`: the permission bits of `st_mode` (`m & 0o7777`). -/
def S_IMODE (m : Nat) : Nat := m % 4096

/-- `get_filetype` from DeassimilateProcess.py: classify a mode word with the
`stat.S_IS*` macros, in the source's order, `None` when nothing matches. -/
def get_filetype (m : Nat) : Option String :=
  if S_IFMT m = 0o100000 then some "REGULAR"
  else if S_IFMT m = 0o120000 then some "SYMLINK"
  else if S_IFMT m = 0o010000 then some "FIFO"
  else if S_IFMT m = 0o140000 then some "SOCK"
  else if S_IFMT m = 0o060000 then some "DEVBLK"
  else if S_IFMT m = 0o020000 then some "DEVCHR"
  else if S_IFMT m = 0o040000 then some "DIR"
  else none

/- ## `copy_file_attrs` as its syscall trace -/

/-- The attribute-copying syscalls `copy_file_attrs` can issue. -/
inductive Syscall where
  | lchown (path : String) (uid gid : Nat)
  | chmod (path : String) (mode : Nat)
  | utime (path : String) (atime mtime : Nat)
  deriving Repr, DecidableEq

/-- `copy_file_attrs(src, dst, filetype, st, logger)`: always `os.lchown`,
then `os.chmod` and `os.utime` only when `filetype in ("REGULAR", "DIR")`.
The function's logging (including the quirky substring check
`filetype in ("SYMLINK")`, which only selects a log level) has no effect on
the syscalls issued and is not modelled. -/
def copy_file_attrs (dst : String) (filetype : String) (st : Stat) : List Syscall :=
  [Syscall.lchown dst st.st_uid st.st_gid]
    ++ (if filetype = "REGULAR" ∨ filetype = "DIR"
        then [Syscall.chmod dst (S_IMODE st.st_mode)] else [])
    ++ (if filetype = "REGULAR" ∨ filetype = "DIR"
        then [Syscall.utime dst st.st_atime st.st_mtime] else [])

/- ## `combine_paths` -/

/-- `combine_paths(base, sub)` from DeassimilateProcess.py: lstrip the
sub-path's slashes, join with `Path(base) / Path(stripped)`, and append a
trailing `/` (the source's conditional produces the same string in both of
its branches). -/
def combine_paths (base_path sub_path : String) : String :=
  let stripped_sub := lstripSlashes sub_path
  let combined :=
    pathStr (pathIsAbs base_path) (pathParts base_path ++ pathParts stripped_sub)
  combined ++ "/"

/-- The source-to-target mapping computed at the top of `deassimilate_dir`
(lines 203–210): strip the share-mount prefix from `dirpath` and join what
is left onto `combine_paths volmnt share_root`; when the lengths coincide
(the directory is the share mount itself) use the base mapping directly. -/
def vol_path_of (sharemnt share_root volmnt dirpath : String) : String :=
  if sharemnt.length ≠ dirpath.length then
    combine_paths (combine_paths volmnt share_root)
      (String.mk (dirpath.toList.drop sharemnt.length))
  else
    combine_paths volmnt share_root

/- ## Placement metadata (the shadow-filesystem document) -/

/-- One entry of the metadata document's `instance` list: a volume id
(`obs`) and a volume-relative path. -/
structure PlacementInstance where
  obs : Int
  path : String
  deriving Repr, DecidableEq

/-- The metadata document returned by the side-channel query.
`instanceList = none` models a document without an `'instance'` key. -/
structure InodeInfo where
  instanceList : Option (List PlacementInstance)
  deriving Repr, DecidableEq

/- ## `temp_rename` and `get_inode_info` over the source share -/

/-- `shutil.move` restricted to the single file being tracked: the file's
current on-disk path becomes `dst` when it was `src`. -/
def shutil_move (disk src dst : String) : String :=
  if disk = src then dst else disk

/-- Outcome of running a body under `temp_rename`: the body's result and the
tracked file's final on-disk path. -/
structure TempRenameOut (α : Type) where
  result : Except String α
  diskPath : String
  deriving Repr

/-- `temp_rename(path, func)` from DeassimilateProcess.py: if the final name
component has no `?`, call `func(path)` directly; otherwise rename the file
to the sanitized temporary name, call `func` on it, and rename back — also
on the exception path, before re-raising. -/
def temp_rename {α : Type} (path : String) (func : String → Except String α) :
    TempRenameOut α :=
  if ¬ (pyName path).toList.contains '?' then
    { result := func path, diskPath := path }
  else
    let temp_name := String.mk (replaceQMark (pyName path).toList)
    let temp_path := pyWithName path temp_name
    let disk1 := shutil_move path path temp_path
    match func temp_path with
    | Except.error e =>
      { result := Except.error e, diskPath := shutil_move disk1 temp_path path }
    | Except.ok r =>
      { result := Except.ok r, diskPath := shutil_move disk1 temp_path path }

/-- `get_inode_info(path)`: read the metadata document through the
reserved-suffix side channel, under `temp_rename`.  `readAttr` stands for
`json.load(open(...))` on the suffixed path. -/
def get_inode_info (readAttr : String → Except String InodeInfo) (path : String) :
    TempRenameOut InodeInfo :=
  temp_rename path (fun p => readAttr (p ++ "?.attribute=inode_info"))

/- ## Target-volume filesystem state and the OS creation primitives -/

/-- The target volume's namespace: the set of paths that exist.  Claims are
about creation outcomes, so only existence is tracked. -/
structure FsState where
  existing : List String
  deriving Repr, DecidableEq

/-- Oracle for OS failures that are not caused by an already-existing
destination (EACCES, EXDEV, ...): `linkErr src dst` / `symlinkErr target dst`
give the errno such an attempt would fail with, `none` for success. -/
structure OsEnv where
  linkErr : String → String → Option Nat
  symlinkErr : String → String → Option Nat

/-- Result of a creation syscall: the new state, or an errno. -/
inductive OsRes where
  | ok (st : FsState)
  | err (errno : Nat)
  deriving Repr

/-- `os.link(src, dst)`: EEXIST (17) when `dst` exists, otherwise the
environment decides between failure and creating `dst`. -/
def os_link (env : OsEnv) (st : FsState) (src dst : String) : OsRes :=
  if dst ∈ st.existing then OsRes.err 17
  else
    match env.linkErr src dst with
    | some e => OsRes.err e
    | none => OsRes.ok ⟨dst :: st.existing⟩

/-- `os.symlink(target, dst)`: same shape as `os_link`. -/
def os_symlink (env : OsEnv) (st : FsState) (target dst : String) : OsRes :=
  if dst ∈ st.existing then OsRes.err 17
  else
    match env.symlinkErr target dst with
    | some e => OsRes.err e
    | none => OsRes.ok ⟨dst :: st.existing⟩

/-- `os.makedirs(p, exist_ok=True)`: create the path when missing. -/
def os_makedirs (st : FsState) (p : String) : FsState :=
  if p ∈ st.existing then st else ⟨p :: st.existing⟩

/-- `os.path.isdir` on the target state. -/
def os_isdir (st : FsState) (p : String) : Bool :=
  p ∈ st.existing

/- ## Logging and exceptions -/

/-- The log levels the engine uses. -/
inductive LogLevel where
  | debug
  | info
  | warning
  | error
  deriving Repr, DecidableEq

/-- One emitted log record, with the message abstracted to a fixed tag. -/
structure LogEntry where
  level : LogLevel
  msg : String
  deriving Repr, DecidableEq

/-- Append a log record only when a logger was supplied — the
`if logger is not None:` guard around every logging call. -/
def emit (logger : Bool) (log : List LogEntry) (lvl : LogLevel) (m : String) :
    List LogEntry :=
  if logger then log ++ [⟨lvl, m⟩] else log

/-- A Python exception escaping `deassimilate_dir`: a re-raised `OSError`
with its errno, or an uncaught I/O error from `os.lstat`/`open`. -/
inductive PyExc where
  | oserror (errno : Nat)
  | ioerror (path : String)
  deriving Repr, DecidableEq

/- ## The per-directory summary -/

/-- The dict returned by `deassimilate_dir`.  `extension_counts` is an
association list in insertion order, like a Python dict. -/
structure DirSummary where
  directory : String
  total_files : Nat
  extension_counts : List (String × Nat)
  total_size_bytes : Nat
  deriving Repr, DecidableEq

/-- `extension_counts[ext] = extension_counts.get(ext, 0) + 1` on an
insertion-ordered association list. -/
def bumpCount : List (String × Nat) → String → List (String × Nat)
  | [], k => [(k, 1)]
  | (k', v) :: rest, k =>
    if k' = k then (k', v + 1) :: rest else (k', v) :: bumpCount rest k

/-- `extension_counts.get(k, 0)`. -/
def countOf : List (String × Nat) → String → Nat
  | [], _ => 0
  | (k', v) :: rest, k => if k' = k then v else countOf rest k

/- ## The source directory as `deassimilate_dir` observes it -/

/-- Everything `deassimilate_dir` reads about one file of the directory:
its `os.lstat` record, its `os.readlink` target when it is a symlink, and
the metadata document the side channel returns for it (`none` models the
suffixed `open` raising).  The transient `temp_rename` of the source file
is proved name-preserving separately and is not re-modelled here. -/
structure FileMeta where
  fstat : Stat
  linkTarget : String := ""
  inodeInfo : Option InodeInfo := none
  deriving Repr, DecidableEq

/-- The source directory: its own `os.lstat`/`os.readlink`, and its files
(`files fn = none` models `os.lstat` raising on a vanished entry). -/
structure SourceDir where
  dirStat : Stat
  dirLinkTarget : String := ""
  files : String → Option FileMeta

/- ## The per-file loop of `deassimilate_dir` -/

/-- The inputs the file loop closes over. -/
structure Ctx where
  env : OsEnv
  src : SourceDir
  logger : Bool
  dirpath : String
  volmnt : String
  volid : Int
  vol_path : String

/-- The loop's running state: the statistics accumulators, the target
filesystem, the log, and the attribute syscalls issued so far. -/
structure LoopAcc where
  counts : List (String × Nat)
  size : Nat
  st : FsState
  log : List LogEntry
  calls : List Syscall

/-- The statistics lines of the loop body (DeassimilateProcess.py 309–314):
tally the lower-cased suffix of the joined path and the `lstat` size. -/
def tallyOf (c : Ctx) (acc : LoopAcc) (fn : String) (fm : FileMeta) : LoopAcc :=
  { acc with
    counts := bumpCount acc.counts (extOf (pjoin c.dirpath fn)),
    size := acc.size + fm.fstat.st_size }

/-- The creation part of the loop body (lines 318–435): dispatch on the
file type; resolve the placement and hard-link a regular file, recreate a
symlink and copy its attributes, do nothing for other types.  A `raise`
reachable only under `if logger is not None:` is modelled exactly so. -/
def file_create (c : Ctx) (acc : LoopAcc) (fn : String) (fm : FileMeta) :
    Except (PyExc × LoopAcc) LoopAcc :=
  let share_full := pjoin c.dirpath fn
  let vol_full := pjoin c.vol_path fn
  if get_filetype fm.fstat.st_mode = some "REGULAR" then
    match fm.inodeInfo with
    | none => Except.error (PyExc.ioerror (share_full ++ "?.attribute=inode_info"), acc)
    | some info =>
      match info.instanceList with
      | none =>
        Except.ok { acc with
          log := emit c.logger acc.log LogLevel.error
            "does not have an instance inode_info section" }
      | some insts =>
        if insts.length < 1 then
          Except.ok { acc with
            log := emit c.logger acc.log LogLevel.error
              "does not have an instance inode_info section" }
        else
          match insts.find? (fun inst => inst.obs == c.volid) with
          | none =>
            Except.ok { acc with
              log := emit c.logger acc.log LogLevel.error
                "does not have an instance on needed volume id" }
          | some inst =>
            let path_instance :=
              pjoin c.volmnt (String.mk (inst.path.toList.drop 1))
            match os_link c.env acc.st path_instance vol_full with
            | OsRes.ok st' => Except.ok { acc with st := st' }
            | OsRes.err e =>
              if e = 17 then
                Except.ok { acc with
                  log := emit c.logger acc.log LogLevel.error
                    "File already exists, skipping os.link" }
              else if c.logger then
                Except.error (PyExc.oserror e,
                  { acc with log := emit c.logger acc.log LogLevel.info "os.link error" })
              else
                Except.ok acc
  else if get_filetype fm.fstat.st_mode = some "SYMLINK" then
    match os_symlink c.env acc.st fm.linkTarget vol_full with
    | OsRes.ok st' =>
      Except.ok { acc with
        st := st',
        calls := acc.calls ++ copy_file_attrs vol_full "SYMLINK" fm.fstat }
    | OsRes.err e =>
      if e = 17 then
        Except.ok { acc with
          log := emit c.logger acc.log LogLevel.warning "Symlink already exists, skipping",
          calls := acc.calls ++ copy_file_attrs vol_full "SYMLINK" fm.fstat }
      else if c.logger then
        Except.error (PyExc.oserror e,
          { acc with log := emit c.logger acc.log LogLevel.error "os.symlink error" })
      else
        Except.ok { acc with
          calls := acc.calls ++ copy_file_attrs vol_full "SYMLINK" fm.fstat }
  else
    Except.ok acc

/-- One iteration of `for fn in filenames:`: `os.lstat` the entry (raising
if it is gone), tally the statistics, then run the creation part. -/
def file_step (c : Ctx) (acc : LoopAcc) (fn : String) :
    Except (PyExc × LoopAcc) LoopAcc :=
  match c.src.files fn with
  | none => Except.error (PyExc.ioerror (pjoin c.dirpath fn), acc)
  | some fm => file_create c (tallyOf c acc fn fm) fn fm

/-- The whole file loop; an exception aborts the remaining entries. -/
def file_loop (c : Ctx) : LoopAcc → List String → Except (PyExc × LoopAcc) LoopAcc
  | acc, [] => Except.ok acc
  | acc, fn :: rest =>
    match file_step c acc fn with
    | Except.ok acc' => file_loop c acc' rest
    | Except.error e => Except.error e

/- ## `deassimilate_dir` -/

/-- What a call to `deassimilate_dir` produces: the returned summary or the
escaping exception, plus the target state, log, and attribute syscalls. -/
structure RunOut where
  result : Except PyExc DirSummary
  state : FsState
  log : List LogEntry
  calls : List Syscall

/-- The symlink destination path of the directory-symlink branch
(lines 220–223): the mapped path with its trailing slash stripped. -/
def dirVp (sharemnt share_root volmnt dirpath : String) : String :=
  if endsWithSlash (vol_path_of sharemnt share_root volmnt dirpath)
  then rstripSlashes (vol_path_of sharemnt share_root volmnt dirpath)
  else vol_path_of sharemnt share_root volmnt dirpath

/-- The target-state effect of the directory-creation step (lines 266–281):
`os.makedirs(vol_path, exist_ok=True)` guarded by `os.path.isdir`. -/
def initSt (st0 : FsState) (vol_path : String) : FsState :=
  if os_isdir st0 vol_path then st0 else os_makedirs st0 vol_path

/-- `deassimilate_dir(dirpath, filenames, logger, sharemnt, share_root,
volmnt, volid)`: compute the target path, then either recreate a
directory-symlink (file loop skipped), or create the directory tolerating
`already exists`, copy its attributes, and run the file loop.  The summary
dict is returned exactly as built by the source (line 437–442). -/
def deassimilate_dir (env : OsEnv) (src : SourceDir) (logger : Bool)
    (dirpath : String) (filenames : List String)
    (sharemnt share_root volmnt : String) (volid : Int)
    (st0 : FsState) : RunOut :=
  let vol_path := vol_path_of sharemnt share_root volmnt dirpath
  if get_filetype src.dirStat.st_mode = some "SYMLINK" then
    -- Directory symlink: strip the trailing slash, `os.symlink`, copy attrs.
    let vp := dirVp sharemnt share_root volmnt dirpath
    let log0 := emit logger [] LogLevel.info "Directory symlink detected"
    let summary : DirSummary :=
      ⟨dirpath, filenames.length, [], 0⟩
    match os_symlink env st0 src.dirLinkTarget vp with
    | OsRes.ok st1 =>
      { result := Except.ok summary, state := st1,
        log := emit logger log0 LogLevel.info "Symlink created",
        calls := copy_file_attrs vp "SYMLINK" src.dirStat }
    | OsRes.err e =>
      if e = 17 then
        { result := Except.ok summary, state := st0,
          log := emit logger (emit logger log0 LogLevel.warning "Symlink already exists")
            LogLevel.info "Symlink created",
          calls := copy_file_attrs vp "SYMLINK" src.dirStat }
      else if logger then
        -- `raise e` sits inside the `if logger is not None:` block.
        { result := Except.error (PyExc.oserror e), state := st0,
          log := emit logger log0 LogLevel.error "Symlink error", calls := [] }
      else
        { result := Except.ok summary, state := st0, log := log0,
          calls := copy_file_attrs vp "SYMLINK" src.dirStat }
  else
    -- Plain directory: makedirs tolerating existence, then fix up attrs
    -- unconditionally, then the file loop.
    let st1 := initSt st0 vol_path
    let acc0 : LoopAcc :=
      { counts := [], size := 0, st := st1, log := [],
        calls := copy_file_attrs vol_path "DIR" src.dirStat }
    let c : Ctx := ⟨env, src, logger, dirpath, volmnt, volid, vol_path⟩
    match file_loop c acc0 filenames with
    | Except.ok accF =>
      { result := Except.ok ⟨dirpath, filenames.length, accF.counts, accF.size⟩,
        state := accF.st, log := accF.log, calls := accF.calls }
    | Except.error (e, accE) =>
      { result := Except.error e, state := accE.st,
        log := accE.log, calls := accE.calls }

/- ## `_worker_function` (DirectoryWalker.py) -/

/-- A `FileResult` as the worker posts it (its `result`/`error` payloads are
always `None` on this path, so only the two live fields are kept). -/
structure FileResultM where
  filepath : String
  status : String
  deriving Repr, DecidableEq

/-- A `DirectoryResult`. -/
structure DirectoryResultM where
  directory : String
  status : String
  file_results : List FileResultM
  processing_result : Option DirSummary
  error : Option String
  deriving Repr, DecidableEq

/-- What the deserialized processor function does on one directory: return
a summary, or raise (carrying `str(e)`). -/
inductive ProcOutcome where
  | ok (r : DirSummary)
  | exn (msg : String)
  deriving Repr, DecidableEq

/-- One pass of the worker's `while True:` body on a dequeued item.
`none` is the poison pill (break).  For a real task, `_get_files_only`
re-lists the directory (its failure reaches the outer `except`, which posts
an error result for directory "unknown"); the processor call is wrapped in
the inner `try`, producing a success or error `DirectoryResult`.  Returns
the results posted and whether the loop keeps running. -/
def worker_iteration (listing : String → Except String (List String))
    (proc : String → List String → ProcOutcome)
    (task : Option (String × List String)) : List DirectoryResultM × Bool :=
  match task with
  | none => ([], false)
  | some (directory, _) =>
    match listing directory with
    | Except.error msg =>
      ([{ directory := "unknown", status := "error", file_results := [],
          processing_result := none, error := some msg }], true)
    | Except.ok filenames =>
      match proc directory filenames with
      | ProcOutcome.ok r =>
        ([{ directory := directory, status := "success",
            file_results :=
              filenames.map (fun f => { filepath := pjoin directory f, status := "success" }),
            processing_result := some r, error := none }], true)
      | ProcOutcome.exn m =>
        ([{ directory := directory, status := "error", file_results := [],
            processing_result := none, error := some m }], true)

/-- The worker's loop over the sequence of items it dequeues, collecting
every `DirectoryResult` it posts; a poison pill ends the loop. -/
def worker_loop (listing : String → Except String (List String))
    (proc : String → List String → ProcOutcome) :
    List (Option (String × List String)) → List DirectoryResultM
  | [] => []
  | t :: rest =>
    match worker_iteration listing proc t with
    | (rs, true) => rs ++ worker_loop listing proc rest
    | (rs, false) => rs

/- ## `DirectoryWalker.walk_directories` traversal loop -/

/-- The scheduler's observable actions on the task queue and worker pool. -/
inductive WalkAct where
  | task (d : String)
  | pill
  | join (w : Nat)
  deriving Repr, DecidableEq

/-- The traversal loop of `walk_directories` (lines 374–397): for each
directory, enqueue its task, then check worker liveness (`alive i` is the
outcome of the check after the i-th enqueue); when no worker is alive, join
every worker and return (`false` = aborted).  A completed walk enqueues one
poison pill per worker and joins every worker (`true`). -/
def walk_go (alive : Nat → Bool) (nworkers : Nat) :
    List String → Nat → List WalkAct × Bool
  | [], _ =>
    (List.replicate nworkers WalkAct.pill ++ (List.range nworkers).map WalkAct.join,
     true)
  | d :: rest, i =>
    if alive i then
      let cont := walk_go alive nworkers rest (i + 1)
      (WalkAct.task d :: cont.1, cont.2)
    else
      (WalkAct.task d :: (List.range nworkers).map WalkAct.join, false)

/-- `walk_directories` restricted to its enqueue/join protocol, on the list
of directories `os.walk` yields. -/
def walk_directories_trace (alive : Nat → Bool) (nworkers : Nat)
    (dirs : List String) : List WalkAct × Bool :=
  walk_go alive nworkers dirs 0

/- ## `DirectoryWalker.__init__` result-processor fallback -/

/-- The keyword parameters `DefaultResultProcessor.__init__` accepts
(DirectoryWalker.py line 111: `def __init__(self, logger=None)`). -/
def defaultResultProcessorParams : List String := ["logger"]

/-- Calling `DefaultResultProcessor(**kwargs)`: Python raises `TypeError`
when a keyword argument is not a declared parameter. -/
def callDefaultResultProcessor (kwargs : List String) : Except String Unit :=
  if kwargs.all (fun k => defaultResultProcessorParams.contains k) then
    Except.ok ()
  else
    Except.error "TypeError"

/-- The result-processor setup in `DirectoryWalker.__init__` (lines 297–298):
keep a supplied processor, otherwise fall back to
`DefaultResultProcessor(process_results=False, logger=logger)`. -/
def directoryWalkerInitProcessor (result_processor_supplied : Bool) :
    Except String Unit :=
  if result_processor_supplied then Except.ok ()
  else callDefaultResultProcessor ["process_results", "logger"]

/- # Theorems -/

/-- Equality of `Except` results is decidable componentwise. -/
instance exceptDecEq {ε α : Type} [DecidableEq ε] [DecidableEq α] :
    DecidableEq (Except ε α)
  | Except.ok a, Except.ok b =>
    if h : a = b then isTrue (by rw [h]) else isFalse (by simp [h])
  | Except.ok _, Except.error _ => isFalse (by simp)
  | Except.error _, Except.ok _ => isFalse (by simp)
  | Except.error a, Except.error b =>
    if h : a = b then isTrue (by rw [h]) else isFalse (by simp [h])

/- ## C9 — `copy_file_attrs` on symlinks only changes ownership -/

/-- Claim C9: for a destination with filetype `"SYMLINK"`, `copy_file_attrs`
issues only `os.lchown` with the source's uid and gid — neither `os.chmod`
nor `os.utime` — while for `"REGULAR"` and `"DIR"` it issues all three. -/
theorem copy_file_attrs_symlink_frame (dst : String) (st : Stat) :
    copy_file_attrs dst "SYMLINK" st = [Syscall.lchown dst st.st_uid st.st_gid]
    ∧ copy_file_attrs dst "REGULAR" st
        = [Syscall.lchown dst st.st_uid st.st_gid,
           Syscall.chmod dst (S_IMODE st.st_mode),
           Syscall.utime dst st.st_atime st.st_mtime]
    ∧ copy_file_attrs dst "DIR" st
        = [Syscall.lchown dst st.st_uid st.st_gid,
           Syscall.chmod dst (S_IMODE st.st_mode),
           Syscall.utime dst st.st_atime st.st_mtime] :=
  ⟨rfl, rfl, rfl⟩

/- ## C10 — constructing a `DirectoryWalker` without a result processor -/

/-- Claim C10: leaving `result_processor` at its default makes
`DirectoryWalker.__init__` call
`DefaultResultProcessor(process_results=False, logger=logger)`, which raises
`TypeError` because `process_results` is not an accepted parameter; passing
an explicit processor succeeds. -/
theorem directoryWalkerInit_requires_processor :
    directoryWalkerInitProcessor false = Except.error "TypeError"
    ∧ directoryWalkerInitProcessor true = Except.ok () :=
  ⟨rfl, rfl⟩

/- ## C4 — the path mapping is the pure strip-and-join composition -/

/-- Claim C4: for a directory strictly under the share mount, the target
path computed by `deassimilate_dir` equals `volmnt` joined with
`share_root` joined with the suffix of `dirpath` after the share-mount
prefix, and the mapping is deterministic — two calls on the same inputs
give identical output. -/
theorem vol_path_mapping_pure (sharemnt share_root volmnt dirpath : String)
    (hpre : List.isPrefixOf sharemnt.toList dirpath.toList = true)
    (hlen : sharemnt.length ≠ dirpath.length) :
    vol_path_of sharemnt share_root volmnt dirpath
      = combine_paths (combine_paths volmnt share_root)
          (String.mk (dirpath.toList.drop sharemnt.length))
    ∧ vol_path_of sharemnt share_root volmnt dirpath
      = vol_path_of sharemnt share_root volmnt dirpath := by
  refine ⟨?_, rfl⟩
  unfold vol_path_of
  rw [if_pos hlen]

/-- Witness for C4 at a concrete share-mounted directory. -/
theorem vol_path_mapping_pure_witness :
    (List.isPrefixOf "/mnt/share".toList "/mnt/share/a/b".toList = true
      ∧ ("/mnt/share" : String).length ≠ ("/mnt/share/a/b" : String).length)
    ∧ (vol_path_of "/mnt/share" "/sr" "/mnt/vol" "/mnt/share/a/b"
        = combine_paths (combine_paths "/mnt/vol" "/sr")
            (String.mk ("/mnt/share/a/b".toList.drop ("/mnt/share" : String).length))
      ∧ vol_path_of "/mnt/share" "/sr" "/mnt/vol" "/mnt/share/a/b"
        = vol_path_of "/mnt/share" "/sr" "/mnt/vol" "/mnt/share/a/b") :=
  ⟨⟨by decide, by decide⟩,
   vol_path_mapping_pure "/mnt/share" "/sr" "/mnt/vol" "/mnt/share/a/b"
     (by decide) (by decide)⟩

/- ## C1 — the sentinel rename always restores the original name -/

/-- `temp_rename` leaves the tracked file at its original path whatever the
body does, with or without a sentinel in the name. -/
theorem temp_rename_diskPath {α : Type} (path : String)
    (func : String → Except String α) :
    (temp_rename path func).diskPath = path := by
  unfold temp_rename
  split
  · rfl
  · simp only [shutil_move, if_pos]
    split <;> rfl

/-- Claim C1: for a path whose final name component contains the sentinel
`?`, resolving placements through `temp_rename` (and `get_inode_info`,
which wraps the side-channel read in it) leaves the file's on-disk name
identical to the original, both when the wrapped query succeeds and when
it raises — the rename back runs on every exit path. -/
theorem sentinel_rename_restores_name (path : String)
    (func : String → Except String InodeInfo)
    (readAttr : String → Except String InodeInfo)
    (hq : (pyName path).toList.contains '?' = true) :
    (temp_rename path func).diskPath = path
    ∧ (get_inode_info readAttr path).diskPath = path :=
  ⟨temp_rename_diskPath path func,
   temp_rename_diskPath path (fun p => readAttr (p ++ "?.attribute=inode_info"))⟩

/-- Witness for C1: a file literally named `fi?le.txt`, with a failing query
and with a succeeding one. -/
theorem sentinel_rename_restores_name_witness :
    (pyName "/mnt/share/fi?le.txt").toList.contains '?' = true
    ∧ ((temp_rename "/mnt/share/fi?le.txt"
          (fun _ => (Except.error "query failed" : Except String InodeInfo))).diskPath
        = "/mnt/share/fi?le.txt"
      ∧ (get_inode_info (fun _ => Except.ok ⟨some []⟩)
          "/mnt/share/fi?le.txt").diskPath = "/mnt/share/fi?le.txt") :=
  ⟨by decide,
   sentinel_rename_restores_name "/mnt/share/fi?le.txt"
     (fun _ => Except.error "query failed") (fun _ => Except.ok ⟨some []⟩)
     (by decide)⟩

/- ## C3 — one `DirectoryResult` per dequeued task -/

/-- Any non-poison-pill iteration posts exactly one result and keeps the
worker loop alive. -/
theorem worker_iteration_shape (listing : String → Except String (List String))
    (proc : String → List String → ProcOutcome)
    (t : Option (String × List String)) (ht : t ≠ none) :
    (worker_iteration listing proc t).1.length = 1
    ∧ (worker_iteration listing proc t).2 = true := by
  match t with
  | none => exact absurd rfl ht
  | some (d, q) =>
    simp only [worker_iteration]
    cases hl : listing d with
    | error msg => simp
    | ok fs =>
      cases hp : proc d fs with
      | ok r => simp [hp]
      | exn m => simp [hp]

/-- Claim C3: a worker posts exactly one `DirectoryResult` for every
non-poison task it dequeues — `status="success"` carrying the processing
result when the processor function returns, `status="error"` carrying the
stringified exception with empty `file_results` and no `processing_result`
when it raises — and the loop keeps running (the worker does not crash on
a processor exception). -/
theorem worker_posts_exactly_one_result
    (listing : String → Except String (List String))
    (proc : String → List String → ProcOutcome)
    (tasks : List (Option (String × List String)))
    (hnp : (none : Option (String × List String)) ∉ tasks) :
    (worker_loop listing proc (tasks ++ [none])).length = tasks.length
    ∧ (∀ t, t ≠ none →
        (worker_iteration listing proc t).1.length = 1
          ∧ (worker_iteration listing proc t).2 = true)
    ∧ (∀ d q fs r, listing d = Except.ok fs → proc d fs = ProcOutcome.ok r →
        worker_iteration listing proc (some (d, q))
          = ([⟨d, "success",
                fs.map (fun f => ⟨pjoin d f, "success"⟩), some r, none⟩], true))
    ∧ (∀ d q fs m, listing d = Except.ok fs → proc d fs = ProcOutcome.exn m →
        worker_iteration listing proc (some (d, q))
          = ([⟨d, "error", [], none, some m⟩], true)) := by
  refine ⟨?_, fun t ht => worker_iteration_shape listing proc t ht, ?_, ?_⟩
  · induction tasks with
    | nil => rfl
    | cons t rest ih =>
      have ht : t ≠ none := fun h => hnp (by rw [h]; exact List.mem_cons_self _ _)
      obtain ⟨h1, h2⟩ := worker_iteration_shape listing proc t ht
      have hrest : (none : Option (String × List String)) ∉ rest :=
        fun h => hnp (List.mem_cons_of_mem _ h)
      have ihr := ih hrest
      rcases hit : worker_iteration listing proc t with ⟨rs, b⟩
      rw [hit] at h1 h2
      simp only at h1 h2
      subst h2
      have hstep : worker_loop listing proc ((t :: rest) ++ [none])
          = rs ++ worker_loop listing proc (rest ++ [none]) := by
        simp only [List.cons_append, worker_loop, hit, List.append_eq]
      rw [hstep, List.length_append, h1, ihr, List.length_cons]
      omega
  · intro d q fs r hl hp
    simp only [worker_iteration, hl, hp]
  · intro d q fs m hl hp
    simp only [worker_iteration, hl, hp]

/-- Witness for C3: two real tasks — one whose processor returns, one whose
processor raises — followed by the poison pill. -/
theorem worker_posts_exactly_one_result_witness :
    ((none : Option (String × List String)) ∉
        [some (("/d1", []) : String × List String), some ("/d2", [])])
    ∧ (worker_loop
        (fun d => if d = "/d1" then Except.ok ["a"] else Except.ok ["b"])
        (fun d _ => if d = "/d1" then ProcOutcome.ok ⟨"/d1", 1, [], 0⟩
                    else ProcOutcome.exn "boom")
        ([some ("/d1", []), some ("/d2", [])] ++ [none])).length = 2 := by
  constructor
  · decide
  · exact (worker_posts_exactly_one_result
      (fun d => if d = "/d1" then Except.ok ["a"] else Except.ok ["b"])
      (fun d _ => if d = "/d1" then ProcOutcome.ok ⟨"/d1", 1, [], 0⟩
                  else ProcOutcome.exn "boom")
      [some ("/d1", []), some ("/d2", [])] (by decide)).1

/- ## C8 — the walk aborts without new enqueues when all workers die -/

/-- The traversal loop after the first failed liveness check: the task just
enqueued is followed only by joining every worker, and the walk reports an
abort. -/
theorem walk_go_abort (alive : Nat → Bool) (nworkers : Nat) :
    ∀ (dirs : List String) (k i : Nat), k < dirs.length →
    (∀ j, j < k → alive (i + j) = true) → alive (i + k) = false →
    walk_go alive nworkers dirs i
      = ((dirs.take (k + 1)).map WalkAct.task
          ++ (List.range nworkers).map WalkAct.join, false) := by
  intro dirs
  induction dirs with
  | nil => intro k i hk _ _; exact absurd hk (by simp)
  | cons d rest ih =>
    intro k i hk hlive hdead
    cases k with
    | zero =>
      have hd : alive i = false := by simpa using hdead
      simp [walk_go, hd]
    | succ k' =>
      have ha : alive i = true := by simpa using hlive 0 (Nat.succ_pos k')
      have hk' : k' < rest.length := by simpa using hk
      have hlive' : ∀ j, j < k' → alive (i + 1 + j) = true := by
        intro j hj
        have := hlive (j + 1) (by omega)
        simpa [Nat.add_assoc, Nat.add_comm 1 j] using this
      have hdead' : alive (i + 1 + k') = false := by
        have := hdead
        simpa [Nat.add_assoc, Nat.add_comm 1 k'] using this
      simp [walk_go, ha, ih k' (i + 1) hk' hlive' hdead']

/-- Claim C8: after every task enqueue the scheduler checks worker
liveness; at the first check that finds no live worker (after the k-th
enqueue) it joins every worker and returns aborted, having enqueued no
further `DirectoryTask` and no poison pill. -/
theorem walk_aborts_on_dead_pool (alive : Nat → Bool) (nworkers : Nat)
    (dirs : List String) (k : Nat)
    (hk : k < dirs.length)
    (hlive : ∀ j, j < k → alive j = true)
    (hdead : alive k = false) :
    walk_directories_trace alive nworkers dirs
      = ((dirs.take (k + 1)).map WalkAct.task
          ++ (List.range nworkers).map WalkAct.join, false)
    ∧ WalkAct.pill ∉ (walk_directories_trace alive nworkers dirs).1 := by
  have h := walk_go_abort alive nworkers dirs k 0 hk (by simpa using hlive)
    (by simpa using hdead)
  refine ⟨h, ?_⟩
  rw [show walk_directories_trace alive nworkers dirs = walk_go alive nworkers dirs 0 from rfl, h]
  intro hmem
  rcases List.mem_append.mp hmem with h1 | h2
  · rcases List.mem_map.mp h1 with ⟨x, _, hx⟩
    exact WalkAct.noConfusion hx
  · rcases List.mem_map.mp h2 with ⟨x, _, hx⟩
    exact WalkAct.noConfusion hx

/-- Witness for C8: three directories, both workers dead at the check after
the second enqueue. -/
theorem walk_aborts_on_dead_pool_witness :
    ((1 : Nat) < (["a", "b", "c"] : List String).length
      ∧ (fun j => decide (j < 1)) 1 = false)
    ∧ (walk_directories_trace (fun j => decide (j < 1)) 2 ["a", "b", "c"]
        = ([WalkAct.task "a", WalkAct.task "b", WalkAct.join 0, WalkAct.join 1],
           false)
      ∧ WalkAct.pill ∉
          (walk_directories_trace (fun j => decide (j < 1)) 2 ["a", "b", "c"]).1) := by
  refine ⟨⟨by decide, by decide⟩, ?_⟩
  have h := walk_aborts_on_dead_pool (fun j => decide (j < 1)) 2 ["a", "b", "c"] 1
    (by decide) (by intro j hj; interval_cases j <;> decide) (by decide)
  simpa using h

/- ## Helper lemmas about the OS primitives and the file loop -/

theorem os_link_ok_iff (env : OsEnv) (st : FsState) (src dst : String)
    (st' : FsState) (h : os_link env st src dst = OsRes.ok st') :
    st'.existing = dst :: st.existing ∧ dst ∉ st.existing
      ∧ env.linkErr src dst = none := by
  unfold os_link at h
  by_cases hm : dst ∈ st.existing
  · rw [if_pos hm] at h; cases h
  · rw [if_neg hm] at h
    cases he : env.linkErr src dst with
    | some e => rw [he] at h; cases h
    | none => rw [he] at h; cases h; exact ⟨rfl, hm, rfl⟩

theorem os_link_err_iff (env : OsEnv) (st : FsState) (src dst : String)
    (e : Nat) (h : os_link env st src dst = OsRes.err e) :
    (dst ∈ st.existing ∧ e = 17)
      ∨ (dst ∉ st.existing ∧ env.linkErr src dst = some e) := by
  unfold os_link at h
  by_cases hm : dst ∈ st.existing
  · rw [if_pos hm] at h; cases h; exact Or.inl ⟨hm, rfl⟩
  · rw [if_neg hm] at h
    cases he : env.linkErr src dst with
    | some e0 => rw [he] at h; cases h; exact Or.inr ⟨hm, rfl⟩
    | none => rw [he] at h; cases h

theorem os_link_of_mem (env : OsEnv) (st : FsState) (src dst : String)
    (hm : dst ∈ st.existing) : os_link env st src dst = OsRes.err 17 := by
  unfold os_link; rw [if_pos hm]

theorem os_link_of_err (env : OsEnv) (st : FsState) (src dst : String) (e : Nat)
    (hm : dst ∉ st.existing) (he : env.linkErr src dst = some e) :
    os_link env st src dst = OsRes.err e := by
  unfold os_link; rw [if_neg hm, he]

theorem os_link_of_free (env : OsEnv) (st : FsState) (src dst : String)
    (hm : dst ∉ st.existing) (he : env.linkErr src dst = none) :
    os_link env st src dst = OsRes.ok ⟨dst :: st.existing⟩ := by
  unfold os_link; rw [if_neg hm, he]

theorem os_symlink_ok_iff (env : OsEnv) (st : FsState) (target dst : String)
    (st' : FsState) (h : os_symlink env st target dst = OsRes.ok st') :
    st'.existing = dst :: st.existing ∧ dst ∉ st.existing
      ∧ env.symlinkErr target dst = none := by
  unfold os_symlink at h
  by_cases hm : dst ∈ st.existing
  · rw [if_pos hm] at h; cases h
  · rw [if_neg hm] at h
    cases he : env.symlinkErr target dst with
    | some e => rw [he] at h; cases h
    | none => rw [he] at h; cases h; exact ⟨rfl, hm, rfl⟩

theorem os_symlink_err_iff (env : OsEnv) (st : FsState) (target dst : String)
    (e : Nat) (h : os_symlink env st target dst = OsRes.err e) :
    (dst ∈ st.existing ∧ e = 17)
      ∨ (dst ∉ st.existing ∧ env.symlinkErr target dst = some e) := by
  unfold os_symlink at h
  by_cases hm : dst ∈ st.existing
  · rw [if_pos hm] at h; cases h; exact Or.inl ⟨hm, rfl⟩
  · rw [if_neg hm] at h
    cases he : env.symlinkErr target dst with
    | some e0 => rw [he] at h; cases h; exact Or.inr ⟨hm, rfl⟩
    | none => rw [he] at h; cases h

theorem os_symlink_of_mem (env : OsEnv) (st : FsState) (target dst : String)
    (hm : dst ∈ st.existing) : os_symlink env st target dst = OsRes.err 17 := by
  unfold os_symlink; rw [if_pos hm]

theorem os_symlink_of_err (env : OsEnv) (st : FsState) (target dst : String)
    (e : Nat) (hm : dst ∉ st.existing) (he : env.symlinkErr target dst = some e) :
    os_symlink env st target dst = OsRes.err e := by
  unfold os_symlink; rw [if_neg hm, he]

theorem os_symlink_of_free (env : OsEnv) (st : FsState) (target dst : String)
    (hm : dst ∉ st.existing) (he : env.symlinkErr target dst = none) :
    os_symlink env st target dst = OsRes.ok ⟨dst :: st.existing⟩ := by
  unfold os_symlink; rw [if_neg hm, he]

/-- Bumping one key of the histogram increments exactly that key's count. -/
theorem countOf_bumpCount (m : List (String × Nat)) (k q : String) :
    countOf (bumpCount m k) q = countOf m q + (if k = q then 1 else 0) := by
  induction m with
  | nil =>
    simp only [bumpCount, countOf]
    by_cases h : k = q <;> simp [h]
  | cons p rest ih =>
    rcases p with ⟨a, v⟩
    by_cases h1 : a = k
    · subst h1
      by_cases h2 : a = q <;> simp [bumpCount, countOf, h2]
    · have h3 : k = q → ¬ a = q := fun hkq haq => h1 (haq.trans hkq.symm)
      by_cases h2 : a = q
      · have h4 : ¬ k = q := fun hkq => h3 hkq h2
        have h5 : ¬ q = k := fun hqk => h1 (h2.trans hqk)
        simp [bumpCount, countOf, h1, h2, h4, h5]
      · simp [bumpCount, countOf, h1, h2, ih]

/-- `file_create` never touches the statistics accumulators, and can only
grow the set of existing target paths. -/
theorem file_create_ok_frame (c : Ctx) (acc acc' : LoopAcc) (fn : String)
    (fm : FileMeta) (h : file_create c acc fn fm = Except.ok acc') :
    acc'.counts = acc.counts ∧ acc'.size = acc.size
      ∧ acc.st.existing ⊆ acc'.st.existing := by
  simp only [file_create] at h
  split at h
  · -- REGULAR file
    split at h
    · cases h
    · split at h
      · cases h; exact ⟨rfl, rfl, fun x hx => hx⟩
      · split at h
        · cases h; exact ⟨rfl, rfl, fun x hx => hx⟩
        · split at h
          · cases h; exact ⟨rfl, rfl, fun x hx => hx⟩
          · rename_i inst hfind
            split at h
            · rename_i st' hlink
              cases h
              obtain ⟨hst, _, _⟩ := os_link_ok_iff _ _ _ _ _ hlink
              refine ⟨rfl, rfl, ?_⟩
              intro x hx
              simp only [hst]
              exact List.mem_cons_of_mem _ hx
            · split at h
              · cases h; exact ⟨rfl, rfl, fun x hx => hx⟩
              · split at h
                · cases h
                · cases h; exact ⟨rfl, rfl, fun x hx => hx⟩
  · split at h
    · -- SYMLINK file
      split at h
      · rename_i st' hlink
        cases h
        obtain ⟨hst, _, _⟩ := os_symlink_ok_iff _ _ _ _ _ hlink
        refine ⟨rfl, rfl, ?_⟩
        intro x hx
        simp only [hst]
        exact List.mem_cons_of_mem _ hx
      · split at h
        · cases h; exact ⟨rfl, rfl, fun x hx => hx⟩
        · split at h
          · cases h
          · cases h; exact ⟨rfl, rfl, fun x hx => hx⟩
    · -- other filetypes
      cases h; exact ⟨rfl, rfl, fun x hx => hx⟩

/-- A successful `file_step` looked the file up, tallied exactly its suffix
and size, and can only grow the set of existing target paths. -/
theorem file_step_ok_tally (c : Ctx) (acc acc' : LoopAcc) (fn : String)
    (h : file_step c acc fn = Except.ok acc') :
    ∃ fm, c.src.files fn = some fm
      ∧ acc'.counts = bumpCount acc.counts (extOf (pjoin c.dirpath fn))
      ∧ acc'.size = acc.size + fm.fstat.st_size
      ∧ acc.st.existing ⊆ acc'.st.existing := by
  unfold file_step at h
  cases hf : c.src.files fn with
  | none => rw [hf] at h; cases h
  | some fm =>
    rw [hf] at h
    obtain ⟨h1, h2, h3⟩ := file_create_ok_frame c (tallyOf c acc fn fm) acc' fn fm h
    exact ⟨fm, rfl, h1, h2, h3⟩

/-- A completed file loop: the resulting extension histogram counts, the
resulting size, and monotonicity of the target state. -/
theorem file_loop_ok_props (c : Ctx) : ∀ (fns : List String) (acc accF : LoopAcc),
    file_loop c acc fns = Except.ok accF →
    acc.st.existing ⊆ accF.st.existing
    ∧ (∀ e, countOf accF.counts e
        = countOf acc.counts e
          + (fns.filter (fun fn => extOf (pjoin c.dirpath fn) = e)).length)
    ∧ accF.size = acc.size
        + (fns.map (fun fn =>
            match c.src.files fn with
            | some fm => fm.fstat.st_size
            | none => 0)).sum := by
  intro fns
  induction fns with
  | nil =>
    intro acc accF h
    cases h
    exact ⟨fun x hx => hx, fun e => by simp, by simp⟩
  | cons fn rest ih =>
    intro acc accF h
    unfold file_loop at h
    cases hs : file_step c acc fn with
    | error e => rw [hs] at h; cases h
    | ok acc1 =>
      rw [hs] at h
      obtain ⟨fm, hf, hc1, hsz1, hsub1⟩ := file_step_ok_tally c acc acc1 fn hs
      obtain ⟨hsub2, hc2, hsz2⟩ := ih acc1 accF h
      refine ⟨fun x hx => hsub2 (hsub1 hx), ?_, ?_⟩
      · intro e
        rw [hc2 e, hc1, countOf_bumpCount]
        by_cases he : extOf (pjoin c.dirpath fn) = e
        · simp [he]; omega
        · simp [he, List.filter_cons]
      · rw [hsz2, hsz1]
        simp only [List.map_cons, List.sum_cons, hf]
        omega

/- ### Evaluation lemmas for each branch of `file_create` -/

theorem fc_reg_noKey (c : Ctx) (acc : LoopAcc) (fn : String) (fm : FileMeta)
    (info : InodeInfo)
    (hreg : get_filetype fm.fstat.st_mode = some "REGULAR")
    (hii : fm.inodeInfo = some info)
    (hil : info.instanceList = none) :
    file_create c acc fn fm = Except.ok { acc with
      log := emit c.logger acc.log LogLevel.error
        "does not have an instance inode_info section" } := by
  simp only [file_create, hii, hil]
  rw [if_pos hreg]

theorem fc_reg_empty (c : Ctx) (acc : LoopAcc) (fn : String) (fm : FileMeta)
    (info : InodeInfo) (insts : List PlacementInstance)
    (hreg : get_filetype fm.fstat.st_mode = some "REGULAR")
    (hii : fm.inodeInfo = some info)
    (hil : info.instanceList = some insts)
    (hlen : insts.length < 1) :
    file_create c acc fn fm = Except.ok { acc with
      log := emit c.logger acc.log LogLevel.error
        "does not have an instance inode_info section" } := by
  simp only [file_create, hii, hil]
  rw [if_pos hreg, if_pos hlen]

theorem fc_reg_noMatch (c : Ctx) (acc : LoopAcc) (fn : String) (fm : FileMeta)
    (info : InodeInfo) (insts : List PlacementInstance)
    (hreg : get_filetype fm.fstat.st_mode = some "REGULAR")
    (hii : fm.inodeInfo = some info)
    (hil : info.instanceList = some insts)
    (hlen : ¬ insts.length < 1)
    (hfind : insts.find? (fun inst => inst.obs == c.volid) = none) :
    file_create c acc fn fm = Except.ok { acc with
      log := emit c.logger acc.log LogLevel.error
        "does not have an instance on needed volume id" } := by
  simp only [file_create, hii, hil, hfind]
  rw [if_pos hreg, if_neg hlen]

theorem fc_reg_link_ok (c : Ctx) (acc : LoopAcc) (fn : String) (fm : FileMeta)
    (info : InodeInfo) (insts : List PlacementInstance)
    (inst : PlacementInstance) (st' : FsState)
    (hreg : get_filetype fm.fstat.st_mode = some "REGULAR")
    (hii : fm.inodeInfo = some info)
    (hil : info.instanceList = some insts)
    (hlen : ¬ insts.length < 1)
    (hfind : insts.find? (fun inst => inst.obs == c.volid) = some inst)
    (hlink : os_link c.env acc.st
        (pjoin c.volmnt (String.mk (inst.path.toList.drop 1)))
        (pjoin c.vol_path fn) = OsRes.ok st') :
    file_create c acc fn fm = Except.ok { acc with st := st' } := by
  simp only [file_create, hii, hil, hfind, hlink]
  rw [if_pos hreg, if_neg hlen]

theorem fc_reg_link_exists (c : Ctx) (acc : LoopAcc) (fn : String) (fm : FileMeta)
    (info : InodeInfo) (insts : List PlacementInstance)
    (inst : PlacementInstance)
    (hreg : get_filetype fm.fstat.st_mode = some "REGULAR")
    (hii : fm.inodeInfo = some info)
    (hil : info.instanceList = some insts)
    (hlen : ¬ insts.length < 1)
    (hfind : insts.find? (fun inst => inst.obs == c.volid) = some inst)
    (hlink : os_link c.env acc.st
        (pjoin c.volmnt (String.mk (inst.path.toList.drop 1)))
        (pjoin c.vol_path fn) = OsRes.err 17) :
    file_create c acc fn fm = Except.ok { acc with
      log := emit c.logger acc.log LogLevel.error
        "File already exists, skipping os.link" } := by
  simp only [file_create, hii, hil, hfind, hlink]
  rw [if_pos hreg, if_neg hlen]
  simp

theorem fc_reg_link_err_logger (c : Ctx) (acc : LoopAcc) (fn : String)
    (fm : FileMeta) (info : InodeInfo) (insts : List PlacementInstance)
    (inst : PlacementInstance) (e : Nat)
    (hreg : get_filetype fm.fstat.st_mode = some "REGULAR")
    (hii : fm.inodeInfo = some info)
    (hil : info.instanceList = some insts)
    (hlen : ¬ insts.length < 1)
    (hfind : insts.find? (fun inst => inst.obs == c.volid) = some inst)
    (hlink : os_link c.env acc.st
        (pjoin c.volmnt (String.mk (inst.path.toList.drop 1)))
        (pjoin c.vol_path fn) = OsRes.err e)
    (he : e ≠ 17) (hlog : c.logger = true) :
    file_create c acc fn fm = Except.error (PyExc.oserror e,
      { acc with log := emit c.logger acc.log LogLevel.info "os.link error" }) := by
  simp only [file_create, hii, hil, hfind, hlink, hlog]
  rw [if_pos hreg, if_neg hlen, if_neg he]
  simp

theorem fc_reg_link_err_silent (c : Ctx) (acc : LoopAcc) (fn : String)
    (fm : FileMeta) (info : InodeInfo) (insts : List PlacementInstance)
    (inst : PlacementInstance) (e : Nat)
    (hreg : get_filetype fm.fstat.st_mode = some "REGULAR")
    (hii : fm.inodeInfo = some info)
    (hil : info.instanceList = some insts)
    (hlen : ¬ insts.length < 1)
    (hfind : insts.find? (fun inst => inst.obs == c.volid) = some inst)
    (hlink : os_link c.env acc.st
        (pjoin c.volmnt (String.mk (inst.path.toList.drop 1)))
        (pjoin c.vol_path fn) = OsRes.err e)
    (he : e ≠ 17) (hlog : c.logger = false) :
    file_create c acc fn fm = Except.ok acc := by
  simp only [file_create, hii, hil, hfind, hlink, hlog]
  rw [if_pos hreg, if_neg hlen, if_neg he, if_neg]
  simp

theorem fc_sym_ok (c : Ctx) (acc : LoopAcc) (fn : String) (fm : FileMeta)
    (st' : FsState)
    (hreg : get_filetype fm.fstat.st_mode ≠ some "REGULAR")
    (hsym : get_filetype fm.fstat.st_mode = some "SYMLINK")
    (hlink : os_symlink c.env acc.st fm.linkTarget (pjoin c.vol_path fn)
        = OsRes.ok st') :
    file_create c acc fn fm = Except.ok { acc with
      st := st',
      calls := acc.calls
        ++ copy_file_attrs (pjoin c.vol_path fn) "SYMLINK" fm.fstat } := by
  simp only [file_create, hlink]
  rw [if_neg hreg, if_pos hsym]

theorem fc_sym_exists (c : Ctx) (acc : LoopAcc) (fn : String) (fm : FileMeta)
    (hreg : get_filetype fm.fstat.st_mode ≠ some "REGULAR")
    (hsym : get_filetype fm.fstat.st_mode = some "SYMLINK")
    (hlink : os_symlink c.env acc.st fm.linkTarget (pjoin c.vol_path fn)
        = OsRes.err 17) :
    file_create c acc fn fm = Except.ok { acc with
      log := emit c.logger acc.log LogLevel.warning
        "Symlink already exists, skipping",
      calls := acc.calls
        ++ copy_file_attrs (pjoin c.vol_path fn) "SYMLINK" fm.fstat } := by
  simp only [file_create, hlink]
  rw [if_neg hreg, if_pos hsym]
  simp

theorem fc_sym_err_logger (c : Ctx) (acc : LoopAcc) (fn : String) (fm : FileMeta)
    (e : Nat)
    (hreg : get_filetype fm.fstat.st_mode ≠ some "REGULAR")
    (hsym : get_filetype fm.fstat.st_mode = some "SYMLINK")
    (hlink : os_symlink c.env acc.st fm.linkTarget (pjoin c.vol_path fn)
        = OsRes.err e)
    (he : e ≠ 17) (hlog : c.logger = true) :
    file_create c acc fn fm = Except.error (PyExc.oserror e,
      { acc with log := emit c.logger acc.log LogLevel.error "os.symlink error" }) := by
  simp only [file_create, hlink, hlog]
  rw [if_neg hreg, if_pos hsym, if_neg he]
  simp

theorem fc_sym_err_silent (c : Ctx) (acc : LoopAcc) (fn : String) (fm : FileMeta)
    (e : Nat)
    (hreg : get_filetype fm.fstat.st_mode ≠ some "REGULAR")
    (hsym : get_filetype fm.fstat.st_mode = some "SYMLINK")
    (hlink : os_symlink c.env acc.st fm.linkTarget (pjoin c.vol_path fn)
        = OsRes.err e)
    (he : e ≠ 17) (hlog : c.logger = false) :
    file_create c acc fn fm = Except.ok { acc with
      calls := acc.calls
        ++ copy_file_attrs (pjoin c.vol_path fn) "SYMLINK" fm.fstat } := by
  simp only [file_create, hlink, hlog]
  rw [if_neg hreg, if_pos hsym, if_neg he, if_neg]
  simp

theorem fc_other (c : Ctx) (acc : LoopAcc) (fn : String) (fm : FileMeta)
    (hreg : get_filetype fm.fstat.st_mode ≠ some "REGULAR")
    (hsym : get_filetype fm.fstat.st_mode ≠ some "SYMLINK") :
    file_create c acc fn fm = Except.ok acc := by
  simp only [file_create]
  rw [if_neg hreg, if_neg hsym]

/- ### Simulation: re-running a successful step on a larger target state -/

/-- If a file's creation step succeeded once, running it again against any
target state that contains at least the paths of the original state also
succeeds (an `already exists` outcome is skipped, a deterministic
non-EEXIST OS failure is survived exactly when it was survived the first
time), keeps the statistics untouched, and preserves state inclusion. -/
theorem file_create_sim (c : Ctx) (acc1 acc1' acc2 : LoopAcc) (fn : String)
    (fm : FileMeta)
    (h1 : file_create c acc1 fn fm = Except.ok acc1')
    (hsub : acc1.st.existing ⊆ acc2.st.existing) :
    ∃ acc2', file_create c acc2 fn fm = Except.ok acc2'
      ∧ acc1'.st.existing ⊆ acc2'.st.existing
      ∧ acc2'.counts = acc2.counts ∧ acc2'.size = acc2.size := by
  by_cases hreg : get_filetype fm.fstat.st_mode = some "REGULAR"
  · cases hii : fm.inodeInfo with
    | none =>
      exfalso
      simp only [file_create, hii] at h1
      rw [if_pos hreg] at h1
      cases h1
    | some info =>
      cases hil : info.instanceList with
      | none =>
        rw [fc_reg_noKey c acc1 fn fm info hreg hii hil] at h1
        cases h1
        exact ⟨_, fc_reg_noKey c acc2 fn fm info hreg hii hil, hsub, rfl, rfl⟩
      | some insts =>
        by_cases hlen : insts.length < 1
        · rw [fc_reg_empty c acc1 fn fm info insts hreg hii hil hlen] at h1
          cases h1
          exact ⟨_, fc_reg_empty c acc2 fn fm info insts hreg hii hil hlen,
            hsub, rfl, rfl⟩
        · cases hfind : insts.find? (fun inst => inst.obs == c.volid) with
          | none =>
            rw [fc_reg_noMatch c acc1 fn fm info insts hreg hii hil hlen hfind] at h1
            cases h1
            exact ⟨_, fc_reg_noMatch c acc2 fn fm info insts hreg hii hil hlen hfind,
              hsub, rfl, rfl⟩
          | some inst =>
            cases hl1 : os_link c.env acc1.st
                (pjoin c.volmnt (String.mk (inst.path.toList.drop 1)))
                (pjoin c.vol_path fn) with
            | ok st1' =>
              rw [fc_reg_link_ok c acc1 fn fm info insts inst st1'
                hreg hii hil hlen hfind hl1] at h1
              cases h1
              obtain ⟨hst, hnm1, hle⟩ := os_link_ok_iff _ _ _ _ _ hl1
              by_cases hm2 : pjoin c.vol_path fn ∈ acc2.st.existing
              · refine ⟨_, fc_reg_link_exists c acc2 fn fm info insts inst
                  hreg hii hil hlen hfind (os_link_of_mem _ _ _ _ hm2), ?_, rfl, rfl⟩
                intro x hx
                simp only [hst, List.mem_cons] at hx
                rcases hx with h | h
                · subst h; exact hm2
                · exact hsub h
              · refine ⟨_, fc_reg_link_ok c acc2 fn fm info insts inst
                  ⟨pjoin c.vol_path fn :: acc2.st.existing⟩
                  hreg hii hil hlen hfind (os_link_of_free _ _ _ _ hm2 hle), ?_, rfl, rfl⟩
                intro x hx
                simp only [hst, List.mem_cons] at hx
                rcases hx with h | h
                · subst h; exact List.mem_cons_self _ _
                · exact List.mem_cons_of_mem _ (hsub h)
            | err e =>
              by_cases he : e = 17
              · subst he
                rw [fc_reg_link_exists c acc1 fn fm info insts inst
                  hreg hii hil hlen hfind hl1] at h1
                cases h1
                have h2run : os_link c.env acc2.st
                    (pjoin c.volmnt (String.mk (inst.path.toList.drop 1)))
                    (pjoin c.vol_path fn) = OsRes.err 17 := by
                  rcases os_link_err_iff _ _ _ _ _ hl1 with ⟨hmem, _⟩ | ⟨hnm, hoe⟩
                  · exact os_link_of_mem _ _ _ _ (hsub hmem)
                  · by_cases hm2 : pjoin c.vol_path fn ∈ acc2.st.existing
                    · exact os_link_of_mem _ _ _ _ hm2
                    · exact os_link_of_err _ _ _ _ _ hm2 hoe
                exact ⟨_, fc_reg_link_exists c acc2 fn fm info insts inst
                  hreg hii hil hlen hfind h2run, hsub, rfl, rfl⟩
              · by_cases hlog : c.logger
                · exfalso
                  rw [fc_reg_link_err_logger c acc1 fn fm info insts inst e
                    hreg hii hil hlen hfind hl1 he hlog] at h1
                  cases h1
                · have hlogf : c.logger = false := by simpa using hlog
                  rw [fc_reg_link_err_silent c acc1 fn fm info insts inst e
                    hreg hii hil hlen hfind hl1 he hlogf] at h1
                  cases h1
                  rcases os_link_err_iff _ _ _ _ _ hl1 with ⟨_, h17⟩ | ⟨hnm, hoe⟩
                  · exact absurd h17 he
                  · by_cases hm2 : pjoin c.vol_path fn ∈ acc2.st.existing
                    · exact ⟨_, fc_reg_link_exists c acc2 fn fm info insts inst
                        hreg hii hil hlen hfind (os_link_of_mem _ _ _ _ hm2),
                        hsub, rfl, rfl⟩
                    · exact ⟨_, fc_reg_link_err_silent c acc2 fn fm info insts inst e
                        hreg hii hil hlen hfind (os_link_of_err _ _ _ _ _ hm2 hoe)
                        he hlogf, hsub, rfl, rfl⟩
  · by_cases hsym : get_filetype fm.fstat.st_mode = some "SYMLINK"
    · cases hl1 : os_symlink c.env acc1.st fm.linkTarget (pjoin c.vol_path fn) with
      | ok st1' =>
        rw [fc_sym_ok c acc1 fn fm st1' hreg hsym hl1] at h1
        cases h1
        obtain ⟨hst, hnm1, hle⟩ := os_symlink_ok_iff _ _ _ _ _ hl1
        by_cases hm2 : pjoin c.vol_path fn ∈ acc2.st.existing
        · refine ⟨_, fc_sym_exists c acc2 fn fm hreg hsym
            (os_symlink_of_mem _ _ _ _ hm2), ?_, rfl, rfl⟩
          intro x hx
          simp only [hst, List.mem_cons] at hx
          rcases hx with h | h
          · subst h; exact hm2
          · exact hsub h
        · refine ⟨_, fc_sym_ok c acc2 fn fm ⟨pjoin c.vol_path fn :: acc2.st.existing⟩
            hreg hsym (os_symlink_of_free _ _ _ _ hm2 hle), ?_, rfl, rfl⟩
          intro x hx
          simp only [hst, List.mem_cons] at hx
          rcases hx with h | h
          · subst h; exact List.mem_cons_self _ _
          · exact List.mem_cons_of_mem _ (hsub h)
      | err e =>
        by_cases he : e = 17
        · subst he
          rw [fc_sym_exists c acc1 fn fm hreg hsym hl1] at h1
          cases h1
          have h2run : os_symlink c.env acc2.st fm.linkTarget (pjoin c.vol_path fn)
              = OsRes.err 17 := by
            rcases os_symlink_err_iff _ _ _ _ _ hl1 with ⟨hmem, _⟩ | ⟨hnm, hoe⟩
            · exact os_symlink_of_mem _ _ _ _ (hsub hmem)
            · by_cases hm2 : pjoin c.vol_path fn ∈ acc2.st.existing
              · exact os_symlink_of_mem _ _ _ _ hm2
              · exact os_symlink_of_err _ _ _ _ _ hm2 hoe
          exact ⟨_, fc_sym_exists c acc2 fn fm hreg hsym h2run, hsub, rfl, rfl⟩
        · by_cases hlog : c.logger
          · exfalso
            rw [fc_sym_err_logger c acc1 fn fm e hreg hsym hl1 he hlog] at h1
            cases h1
          · have hlogf : c.logger = false := by simpa using hlog
            rw [fc_sym_err_silent c acc1 fn fm e hreg hsym hl1 he hlogf] at h1
            cases h1
            rcases os_symlink_err_iff _ _ _ _ _ hl1 with ⟨_, h17⟩ | ⟨hnm, hoe⟩
            · exact absurd h17 he
            · by_cases hm2 : pjoin c.vol_path fn ∈ acc2.st.existing
              · exact ⟨_, fc_sym_exists c acc2 fn fm hreg hsym
                  (os_symlink_of_mem _ _ _ _ hm2), hsub, rfl, rfl⟩
              · exact ⟨_, fc_sym_err_silent c acc2 fn fm e hreg hsym
                  (os_symlink_of_err _ _ _ _ _ hm2 hoe) he hlogf, hsub, rfl, rfl⟩
    · rw [fc_other c acc1 fn fm hreg hsym] at h1
      cases h1
      exact ⟨_, fc_other c acc2 fn fm hreg hsym, hsub, rfl, rfl⟩

/-- `file_step` version of the simulation. -/
theorem file_step_sim (c : Ctx) (acc1 acc1' acc2 : LoopAcc) (fn : String)
    (h1 : file_step c acc1 fn = Except.ok acc1')
    (hsub : acc1.st.existing ⊆ acc2.st.existing) :
    ∃ acc2', file_step c acc2 fn = Except.ok acc2'
      ∧ acc1'.st.existing ⊆ acc2'.st.existing := by
  unfold file_step at h1 ⊢
  cases hf : c.src.files fn with
  | none => rw [hf] at h1; cases h1
  | some fm =>
    rw [hf] at h1
    simp only [hf]
    obtain ⟨acc2', h2, hsub', _, _⟩ :=
      file_create_sim c (tallyOf c acc1 fn fm) acc1' (tallyOf c acc2 fn fm) fn fm h1 hsub
    exact ⟨acc2', h2, hsub'⟩

/-- The whole file loop simulates on a larger target state, producing the
same statistics. -/
theorem file_loop_sim (c : Ctx) : ∀ (fns : List String) (acc1 acc2 accF : LoopAcc),
    file_loop c acc1 fns = Except.ok accF →
    acc1.st.existing ⊆ acc2.st.existing →
    acc1.counts = acc2.counts → acc1.size = acc2.size →
    ∃ acc2', file_loop c acc2 fns = Except.ok acc2'
      ∧ acc2'.counts = accF.counts ∧ acc2'.size = accF.size := by
  intro fns
  induction fns with
  | nil =>
    intro acc1 acc2 accF h hsub hc hs
    simp only [file_loop] at h
    cases h
    exact ⟨acc2, rfl, hc.symm, hs.symm⟩
  | cons fn rest ih =>
    intro acc1 acc2 accF h hsub hc hs
    unfold file_loop at h
    cases hs1 : file_step c acc1 fn with
    | error e => rw [hs1] at h; cases h
    | ok acc1' =>
      rw [hs1] at h
      obtain ⟨acc2', h2, hsub'⟩ := file_step_sim c acc1 acc1' acc2 fn hs1 hsub
      obtain ⟨fmA, hfA, hcA, hzA, _⟩ := file_step_ok_tally c acc1 acc1' fn hs1
      obtain ⟨fmB, hfB, hcB, hzB, _⟩ := file_step_ok_tally c acc2 acc2' fn h2
      have hfm : fmA = fmB := by
        rw [hfA] at hfB
        exact Option.some.inj hfB
      obtain ⟨accF2, hloop2, hcF, hsF⟩ := ih acc1' acc2' accF h hsub'
        (by rw [hcA, hcB, hc]) (by rw [hzA, hzB, hs, hfm])
      refine ⟨accF2, ?_, hcF, hsF⟩
      unfold file_loop
      rw [h2]
      exact hloop2

/- ### Evaluation lemmas for the two branches of `deassimilate_dir` -/

theorem initSt_mono (st : FsState) (p x : String) (hx : x ∈ st.existing) :
    x ∈ (initSt st p).existing := by
  unfold initSt os_makedirs
  by_cases hd : os_isdir st p
  · rw [if_pos hd]; exact hx
  · rw [if_neg hd]
    by_cases hm : p ∈ st.existing
    · rw [if_pos hm]; exact hx
    · rw [if_neg hm]; exact List.mem_cons_of_mem _ hx

theorem dd_sym_ok (env : OsEnv) (src : SourceDir) (logger : Bool)
    (dirpath : String) (filenames : List String)
    (sharemnt share_root volmnt : String) (volid : Int) (st0 st1 : FsState)
    (hsym : get_filetype src.dirStat.st_mode = some "SYMLINK")
    (hl : os_symlink env st0 src.dirLinkTarget
        (dirVp sharemnt share_root volmnt dirpath) = OsRes.ok st1) :
    (deassimilate_dir env src logger dirpath filenames sharemnt share_root
        volmnt volid st0).result = Except.ok ⟨dirpath, filenames.length, [], 0⟩
    ∧ (deassimilate_dir env src logger dirpath filenames sharemnt share_root
        volmnt volid st0).state = st1 := by
  simp only [deassimilate_dir]
  rw [if_pos hsym]
  simp only [hl]
  constructor <;> simp

theorem dd_sym_17 (env : OsEnv) (src : SourceDir) (logger : Bool)
    (dirpath : String) (filenames : List String)
    (sharemnt share_root volmnt : String) (volid : Int) (st0 : FsState)
    (hsym : get_filetype src.dirStat.st_mode = some "SYMLINK")
    (hl : os_symlink env st0 src.dirLinkTarget
        (dirVp sharemnt share_root volmnt dirpath) = OsRes.err 17) :
    (deassimilate_dir env src logger dirpath filenames sharemnt share_root
        volmnt volid st0).result = Except.ok ⟨dirpath, filenames.length, [], 0⟩
    ∧ (deassimilate_dir env src logger dirpath filenames sharemnt share_root
        volmnt volid st0).state = st0 := by
  simp only [deassimilate_dir]
  rw [if_pos hsym]
  simp only [hl]
  constructor <;> simp

theorem dd_sym_err_logger (env : OsEnv) (src : SourceDir)
    (dirpath : String) (filenames : List String)
    (sharemnt share_root volmnt : String) (volid : Int) (st0 : FsState) (e : Nat)
    (hsym : get_filetype src.dirStat.st_mode = some "SYMLINK")
    (hl : os_symlink env st0 src.dirLinkTarget
        (dirVp sharemnt share_root volmnt dirpath) = OsRes.err e)
    (he : e ≠ 17) :
    (deassimilate_dir env src true dirpath filenames sharemnt share_root
        volmnt volid st0).result = Except.error (PyExc.oserror e)
    ∧ (deassimilate_dir env src true dirpath filenames sharemnt share_root
        volmnt volid st0).state = st0 := by
  simp only [deassimilate_dir]
  rw [if_pos hsym]
  simp only [hl]
  rw [if_neg he]
  exact ⟨by simp, by simp⟩

theorem dd_sym_err_silent (env : OsEnv) (src : SourceDir)
    (dirpath : String) (filenames : List String)
    (sharemnt share_root volmnt : String) (volid : Int) (st0 : FsState) (e : Nat)
    (hsym : get_filetype src.dirStat.st_mode = some "SYMLINK")
    (hl : os_symlink env st0 src.dirLinkTarget
        (dirVp sharemnt share_root volmnt dirpath) = OsRes.err e)
    (he : e ≠ 17) :
    (deassimilate_dir env src false dirpath filenames sharemnt share_root
        volmnt volid st0).result = Except.ok ⟨dirpath, filenames.length, [], 0⟩
    ∧ (deassimilate_dir env src false dirpath filenames sharemnt share_root
        volmnt volid st0).state = st0 := by
  simp only [deassimilate_dir]
  rw [if_pos hsym]
  simp only [hl]
  rw [if_neg he]
  exact ⟨by simp, by simp⟩

/-- The plain-directory branch unfolded: make the directory, copy its
attributes, then run the file loop. -/
theorem dd_dir_run (env : OsEnv) (src : SourceDir) (logger : Bool)
    (dirpath : String) (filenames : List String)
    (sharemnt share_root volmnt : String) (volid : Int) (st0 : FsState)
    (hsym : get_filetype src.dirStat.st_mode ≠ some "SYMLINK") :
    deassimilate_dir env src logger dirpath filenames sharemnt share_root
        volmnt volid st0
      = match file_loop
            ⟨env, src, logger, dirpath, volmnt, volid,
              vol_path_of sharemnt share_root volmnt dirpath⟩
            { counts := [], size := 0,
              st := initSt st0 (vol_path_of sharemnt share_root volmnt dirpath),
              log := [],
              calls := copy_file_attrs
                (vol_path_of sharemnt share_root volmnt dirpath) "DIR" src.dirStat }
            filenames with
        | Except.ok accF =>
          { result := Except.ok ⟨dirpath, filenames.length, accF.counts, accF.size⟩,
            state := accF.st, log := accF.log, calls := accF.calls }
        | Except.error (e, accE) =>
          { result := Except.error e, state := accE.st,
            log := accE.log, calls := accE.calls } := by
  simp only [deassimilate_dir]
  rw [if_neg hsym]

/- ## C5 — idempotence of `deassimilate_dir` -/

/-- Claim C5: if a run of `deassimilate_dir` returned a summary, running it
again on the target state the first run left behind raises no fatal error —
every `already exists` (errno 17) outcome of symlink, directory, or
hardlink creation is treated as already-migrated and processing continues —
and the second run returns the same `DirectorySummary` counts. -/
theorem deassimilate_dir_idempotent (env : OsEnv) (src : SourceDir)
    (logger : Bool) (dirpath : String) (filenames : List String)
    (sharemnt share_root volmnt : String) (volid : Int)
    (st0 : FsState) (s1 : DirSummary)
    (h : (deassimilate_dir env src logger dirpath filenames sharemnt share_root
        volmnt volid st0).result = Except.ok s1) :
    (deassimilate_dir env src logger dirpath filenames sharemnt share_root
        volmnt volid
        (deassimilate_dir env src logger dirpath filenames sharemnt share_root
          volmnt volid st0).state).result = Except.ok s1 := by
  by_cases hsym : get_filetype src.dirStat.st_mode = some "SYMLINK"
  · rcases hl1 : os_symlink env st0 src.dirLinkTarget
        (dirVp sharemnt share_root volmnt dirpath) with st1 | e
    · obtain ⟨hr1, hst1⟩ := dd_sym_ok env src logger dirpath filenames
        sharemnt share_root volmnt volid st0 st1 hsym hl1
      rw [hr1] at h
      have hs1 : s1 = ⟨dirpath, filenames.length, [], 0⟩ := (Except.ok.inj h).symm
      obtain ⟨hstex, _, _⟩ := os_symlink_ok_iff _ _ _ _ _ hl1
      have hm : dirVp sharemnt share_root volmnt dirpath ∈ st1.existing := by
        rw [hstex]; exact List.mem_cons_self _ _
      obtain ⟨hr2, _⟩ := dd_sym_17 env src logger dirpath filenames
        sharemnt share_root volmnt volid st1 hsym (os_symlink_of_mem _ _ _ _ hm)
      rw [hst1, hr2, hs1]
    · by_cases he : e = 17
      · subst he
        obtain ⟨hr1, hst1⟩ := dd_sym_17 env src logger dirpath filenames
          sharemnt share_root volmnt volid st0 hsym hl1
        rw [hr1] at h
        have hs1 : s1 = ⟨dirpath, filenames.length, [], 0⟩ := (Except.ok.inj h).symm
        obtain ⟨hr2, _⟩ := dd_sym_17 env src logger dirpath filenames
          sharemnt share_root volmnt volid st0 hsym hl1
        rw [hst1, hr2, hs1]
      · cases hlog : logger with
        | true =>
          rw [hlog] at h
          obtain ⟨hr1, _⟩ := dd_sym_err_logger env src dirpath filenames
            sharemnt share_root volmnt volid st0 e hsym hl1 he
          rw [hr1] at h
          cases h
        | false =>
          rw [hlog] at h
          obtain ⟨hr1, hst1⟩ := dd_sym_err_silent env src dirpath filenames
            sharemnt share_root volmnt volid st0 e hsym hl1 he
          rw [hr1] at h
          have hs1 : s1 = ⟨dirpath, filenames.length, [], 0⟩ := (Except.ok.inj h).symm
          obtain ⟨hr2, _⟩ := dd_sym_err_silent env src dirpath filenames
            sharemnt share_root volmnt volid st0 e hsym hl1 he
          rw [hst1, hr2, hs1]
  · have hrun1 := dd_dir_run env src logger dirpath filenames sharemnt share_root
      volmnt volid st0 hsym
    rw [hrun1] at h
    cases hlp : file_loop
        ⟨env, src, logger, dirpath, volmnt, volid,
          vol_path_of sharemnt share_root volmnt dirpath⟩
        { counts := [], size := 0,
          st := initSt st0 (vol_path_of sharemnt share_root volmnt dirpath),
          log := [],
          calls := copy_file_attrs
            (vol_path_of sharemnt share_root volmnt dirpath) "DIR" src.dirStat }
        filenames with
    | error p =>
      rcases p with ⟨e, accE⟩
      simp only [hlp] at h
      cases h
    | ok accF =>
      simp only [hlp] at h
      have hs1 : s1 = ⟨dirpath, filenames.length, accF.counts, accF.size⟩ :=
        (Except.ok.inj h).symm
      have hstate1 : (deassimilate_dir env src logger dirpath filenames sharemnt
          share_root volmnt volid st0).state = accF.st := by
        rw [hrun1, hlp]
      have hsub0 := (file_loop_ok_props
        ⟨env, src, logger, dirpath, volmnt, volid,
          vol_path_of sharemnt share_root volmnt dirpath⟩
        filenames _ accF hlp).1
      have hsub : (initSt st0 (vol_path_of sharemnt share_root volmnt dirpath)).existing
          ⊆ (initSt accF.st (vol_path_of sharemnt share_root volmnt dirpath)).existing := by
        intro x hx
        exact initSt_mono accF.st _ x (hsub0 hx)
      obtain ⟨acc2', hloop2, hc2, hz2⟩ := file_loop_sim
        ⟨env, src, logger, dirpath, volmnt, volid,
          vol_path_of sharemnt share_root volmnt dirpath⟩
        filenames _
        { counts := [], size := 0,
          st := initSt accF.st (vol_path_of sharemnt share_root volmnt dirpath),
          log := [],
          calls := copy_file_attrs
            (vol_path_of sharemnt share_root volmnt dirpath) "DIR" src.dirStat }
        accF hlp hsub rfl rfl
      rw [hstate1,
        dd_dir_run env src logger dirpath filenames sharemnt share_root
          volmnt volid accF.st hsym]
      simp only [hloop2]
      rw [hs1, hc2, hz2]

/-- A failure-free OS environment for concrete runs. -/
def wEnv : OsEnv := ⟨fun _ _ => none, fun _ _ => none⟩

/-- A one-file source directory whose file has a placement on volume 7. -/
def wSrc : SourceDir :=
  { dirStat := ⟨0o040755, 0, 1, 2, 3, 4⟩,
    files := fun fn =>
      if fn = "a.txt" then
        some { fstat := ⟨0o100644, 5, 1, 2, 3, 4⟩,
               inodeInfo := some ⟨some [⟨7, "/x/a.txt"⟩]⟩ }
      else none }

set_option maxRecDepth 8000 in
/-- Witness for C5: a concrete migration that creates the directory and one
hardlink; the re-run returns the identical summary. -/
theorem deassimilate_dir_idempotent_witness :
    ((deassimilate_dir wEnv wSrc true "/mnt/share/d" ["a.txt"] "/mnt/share" "/sr"
        "/mnt/vol" 7 ⟨[]⟩).result
      = Except.ok ⟨"/mnt/share/d", 1, [(".txt", 1)], 5⟩)
    ∧ (deassimilate_dir wEnv wSrc true "/mnt/share/d" ["a.txt"] "/mnt/share" "/sr"
        "/mnt/vol" 7
        (deassimilate_dir wEnv wSrc true "/mnt/share/d" ["a.txt"] "/mnt/share" "/sr"
          "/mnt/vol" 7 ⟨[]⟩).state).result
      = Except.ok ⟨"/mnt/share/d", 1, [(".txt", 1)], 5⟩ :=
  ⟨by rfl,
   deassimilate_dir_idempotent wEnv wSrc true "/mnt/share/d" ["a.txt"] "/mnt/share"
     "/sr" "/mnt/vol" 7 ⟨[]⟩ ⟨"/mnt/share/d", 1, [(".txt", 1)], 5⟩ (by rfl)⟩

/- ## C6 — unusable placement metadata is logged and skipped -/

/-- Claim C6: for a regular file whose metadata document has no `instance`
key, an empty `instance` list, or no instance on the requested volume, the
loop body logs an error, skips the file without raising (the target state
is untouched; the file is still tallied), and the loop continues with the
next entry. -/
theorem no_usable_placement_skips (c : Ctx) (acc : LoopAcc) (fn : String)
    (fm : FileMeta) (info : InodeInfo) (rest : List String)
    (hlog : c.logger = true)
    (hf : c.src.files fn = some fm)
    (hreg : get_filetype fm.fstat.st_mode = some "REGULAR")
    (hii : fm.inodeInfo = some info)
    (hbad : info.instanceList = none ∨ info.instanceList = some []
      ∨ (∃ insts, info.instanceList = some insts
          ∧ insts.find? (fun inst => inst.obs == c.volid) = none)) :
    ∃ m, file_step c acc fn = Except.ok { acc with
        counts := bumpCount acc.counts (extOf (pjoin c.dirpath fn)),
        size := acc.size + fm.fstat.st_size,
        log := acc.log ++ [⟨LogLevel.error, m⟩] }
      ∧ file_loop c acc (fn :: rest) = file_loop c { acc with
          counts := bumpCount acc.counts (extOf (pjoin c.dirpath fn)),
          size := acc.size + fm.fstat.st_size,
          log := acc.log ++ [⟨LogLevel.error, m⟩] } rest := by
  have hloop : ∀ acc', file_step c acc fn = Except.ok acc' →
      file_loop c acc (fn :: rest) = file_loop c acc' rest := by
    intro acc' hs
    have hcons : file_loop c acc (fn :: rest)
        = match file_step c acc fn with
          | Except.ok a' => file_loop c a' rest
          | Except.error e => Except.error e := rfl
    rw [hcons, hs]
  rcases hbad with hil | hil | ⟨insts, hil, hfind⟩
  · refine ⟨"does not have an instance inode_info section", ?_, ?_⟩
    · simp only [file_step, hf]
      rw [fc_reg_noKey c (tallyOf c acc fn fm) fn fm info hreg hii hil]
      simp [emit, hlog, tallyOf]
    · apply hloop
      simp only [file_step, hf]
      rw [fc_reg_noKey c (tallyOf c acc fn fm) fn fm info hreg hii hil]
      simp [emit, hlog, tallyOf]
  · refine ⟨"does not have an instance inode_info section", ?_, ?_⟩
    · simp only [file_step, hf]
      rw [fc_reg_empty c (tallyOf c acc fn fm) fn fm info [] hreg hii hil
        (by simp)]
      simp [emit, hlog, tallyOf]
    · apply hloop
      simp only [file_step, hf]
      rw [fc_reg_empty c (tallyOf c acc fn fm) fn fm info [] hreg hii hil
        (by simp)]
      simp [emit, hlog, tallyOf]
  · by_cases hlen : insts.length < 1
    · refine ⟨"does not have an instance inode_info section", ?_, ?_⟩
      · simp only [file_step, hf]
        rw [fc_reg_empty c (tallyOf c acc fn fm) fn fm info insts hreg hii hil hlen]
        simp [emit, hlog, tallyOf]
      · apply hloop
        simp only [file_step, hf]
        rw [fc_reg_empty c (tallyOf c acc fn fm) fn fm info insts hreg hii hil hlen]
        simp [emit, hlog, tallyOf]
    · refine ⟨"does not have an instance on needed volume id", ?_, ?_⟩
      · simp only [file_step, hf]
        rw [fc_reg_noMatch c (tallyOf c acc fn fm) fn fm info insts hreg hii hil
          hlen hfind]
        simp [emit, hlog, tallyOf]
      · apply hloop
        simp only [file_step, hf]
        rw [fc_reg_noMatch c (tallyOf c acc fn fm) fn fm info insts hreg hii hil
          hlen hfind]
        simp [emit, hlog, tallyOf]

/-- A source directory whose file's metadata has an empty `instance` list. -/
def wSrcNoPlacement : SourceDir :=
  { dirStat := ⟨0o040755, 0, 1, 2, 3, 4⟩,
    files := fun fn =>
      if fn = "a.txt" then
        some { fstat := ⟨0o100644, 5, 1, 2, 3, 4⟩,
               inodeInfo := some ⟨some []⟩ }
      else none }

/-- Witness for C6 at a concrete loop state. -/
theorem no_usable_placement_skips_witness :
    ((⟨wEnv, wSrcNoPlacement, true, "/mnt/share/d", "/mnt/vol", 7,
        "/mnt/vol/sr/d/"⟩ : Ctx).logger = true
      ∧ wSrcNoPlacement.files "a.txt"
        = some { fstat := ⟨0o100644, 5, 1, 2, 3, 4⟩, inodeInfo := some ⟨some []⟩ }
      ∧ get_filetype (⟨0o100644, 5, 1, 2, 3, 4⟩ : Stat).st_mode = some "REGULAR")
    ∧ (∃ m, file_step
          ⟨wEnv, wSrcNoPlacement, true, "/mnt/share/d", "/mnt/vol", 7, "/mnt/vol/sr/d/"⟩
          ⟨[], 0, ⟨[]⟩, [], []⟩ "a.txt"
        = Except.ok { (⟨[], 0, ⟨[]⟩, [], []⟩ : LoopAcc) with
            counts := bumpCount [] (extOf (pjoin "/mnt/share/d" "a.txt")),
            size := 0 + (5 : Nat),
            log := [] ++ [⟨LogLevel.error, m⟩] }
        ∧ file_loop
            ⟨wEnv, wSrcNoPlacement, true, "/mnt/share/d", "/mnt/vol", 7, "/mnt/vol/sr/d/"⟩
            ⟨[], 0, ⟨[]⟩, [], []⟩ ["a.txt", "b.txt"]
          = file_loop
              ⟨wEnv, wSrcNoPlacement, true, "/mnt/share/d", "/mnt/vol", 7, "/mnt/vol/sr/d/"⟩
              { (⟨[], 0, ⟨[]⟩, [], []⟩ : LoopAcc) with
                counts := bumpCount [] (extOf (pjoin "/mnt/share/d" "a.txt")),
                size := 0 + (5 : Nat),
                log := [] ++ [⟨LogLevel.error, m⟩] } ["b.txt"]) :=
  ⟨⟨rfl, by rfl, by rfl⟩,
   no_usable_placement_skips
     ⟨wEnv, wSrcNoPlacement, true, "/mnt/share/d", "/mnt/vol", 7, "/mnt/vol/sr/d/"⟩
     ⟨[], 0, ⟨[]⟩, [], []⟩ "a.txt"
     { fstat := ⟨0o100644, 5, 1, 2, 3, 4⟩, inodeInfo := some ⟨some []⟩ }
     ⟨some []⟩ ["b.txt"] rfl (by rfl) (by rfl) rfl
     (Or.inr (Or.inl rfl))⟩

/- ## C2 — non-EEXIST hardlink failure: re-raise depends on the logger -/

theorem initSt_mem (st : FsState) (p x : String)
    (hx : x ∈ (initSt st p).existing) : x = p ∨ x ∈ st.existing := by
  unfold initSt os_makedirs at hx
  by_cases hd : os_isdir st p
  · rw [if_pos hd] at hx; exact Or.inr hx
  · rw [if_neg hd] at hx
    by_cases hm : p ∈ st.existing
    · rw [if_pos hm] at hx; exact Or.inr hx
    · rw [if_neg hm] at hx
      rcases List.mem_cons.mp hx with h | h
      · exact Or.inl h
      · exact Or.inr h

/-- An environment where every hardlink attempt fails with EACCES (13). -/
def cexEnv : OsEnv := ⟨fun _ _ => some 13, fun _ _ => none⟩

/-- A one-file source directory; the file has a placement on volume 7. -/
def cexSrc : SourceDir :=
  { dirStat := ⟨0o040755, 0, 1, 2, 3, 4⟩,
    files := fun fn =>
      if fn = "a" then
        some { fstat := ⟨0o100644, 4, 1, 2, 3, 4⟩,
               inodeInfo := some ⟨some [⟨7, "/x/a"⟩]⟩ }
      else none }

set_option maxRecDepth 8000 in
/-- Counterexample to C2 as stated: `os.link` fails with errno 13 (≠ 17)
while no logger is supplied, yet `deassimilate_dir` swallows the error and
returns a success summary — the `raise e` sits inside the
`if logger is not None:` block, so the re-raise does not happen
"regardless of whether a logger was supplied". -/
theorem link_error_swallowed_without_logger_cex :
    cexEnv.linkErr "/mnt/vol/x/a" "/mnt/vol/sr/d/a" = some 13
    ∧ (13 : Nat) ≠ 17
    ∧ (deassimilate_dir cexEnv cexSrc false "/mnt/share/d" ["a"] "/mnt/share" "/sr"
        "/mnt/vol" 7 ⟨[]⟩).result
      = Except.ok ⟨"/mnt/share/d", 1, [("", 1)], 4⟩ :=
  ⟨rfl, by decide, by rfl⟩

/-- Claim C2 (amended): a non-errno-17 hardlink failure is logged and
re-raised — aborting the remainder of the directory's file loop — when a
logger was supplied; with no logger it is silently swallowed and the loop
continues (see the counterexample).  An errno-17 failure is logged and the
loop continues with the next file regardless. -/
theorem link_error_reraised_only_with_logger
    (env : OsEnv) (src : SourceDir) (dirpath : String) (f : String)
    (post : List String) (sharemnt share_root volmnt : String) (volid : Int)
    (st0 : FsState) (fm : FileMeta) (info : InodeInfo)
    (insts : List PlacementInstance) (inst : PlacementInstance) (e : Nat)
    (hdir : get_filetype src.dirStat.st_mode ≠ some "SYMLINK")
    (hf : src.files f = some fm)
    (hreg : get_filetype fm.fstat.st_mode = some "REGULAR")
    (hii : fm.inodeInfo = some info)
    (hil : info.instanceList = some insts)
    (hfind : insts.find? (fun i => i.obs == volid) = some inst)
    (h0 : pjoin (vol_path_of sharemnt share_root volmnt dirpath) f ∉ st0.existing)
    (hne : pjoin (vol_path_of sharemnt share_root volmnt dirpath) f
        ≠ vol_path_of sharemnt share_root volmnt dirpath)
    (herr : env.linkErr (pjoin volmnt (String.mk (inst.path.toList.drop 1)))
        (pjoin (vol_path_of sharemnt share_root volmnt dirpath) f) = some e)
    (he : e ≠ 17) :
    ((deassimilate_dir env src true dirpath (f :: post) sharemnt share_root
        volmnt volid st0).result = Except.error (PyExc.oserror e)
      ∧ (⟨LogLevel.info, "os.link error"⟩ : LogEntry)
          ∈ (deassimilate_dir env src true dirpath (f :: post) sharemnt
              share_root volmnt volid st0).log)
    ∧ (∀ (c : Ctx) (acc : LoopAcc) (fn : String) (fm' : FileMeta)
        (info' : InodeInfo) (insts' : List PlacementInstance)
        (inst' : PlacementInstance) (rest : List String),
        c.src.files fn = some fm' →
        get_filetype fm'.fstat.st_mode = some "REGULAR" →
        fm'.inodeInfo = some info' →
        info'.instanceList = some insts' →
        insts'.find? (fun i => i.obs == c.volid) = some inst' →
        pjoin c.vol_path fn ∈ acc.st.existing →
        file_step c acc fn = Except.ok { acc with
            counts := bumpCount acc.counts (extOf (pjoin c.dirpath fn)),
            size := acc.size + fm'.fstat.st_size,
            log := emit c.logger acc.log LogLevel.error
              "File already exists, skipping os.link" }
          ∧ file_loop c acc (fn :: rest) = file_loop c { acc with
              counts := bumpCount acc.counts (extOf (pjoin c.dirpath fn)),
              size := acc.size + fm'.fstat.st_size,
              log := emit c.logger acc.log LogLevel.error
                "File already exists, skipping os.link" } rest) := by
  constructor
  · have hlen : ¬ insts.length < 1 := by
      cases insts with
      | nil => simp at hfind
      | cons a t => simp
    have hnmem : pjoin (vol_path_of sharemnt share_root volmnt dirpath) f
        ∉ (initSt st0 (vol_path_of sharemnt share_root volmnt dirpath)).existing := by
      intro hmem
      rcases initSt_mem _ _ _ hmem with h | h
      · exact hne h
      · exact h0 h
    have hlink := os_link_of_err env
      (initSt st0 (vol_path_of sharemnt share_root volmnt dirpath))
      (pjoin volmnt (String.mk (inst.path.toList.drop 1)))
      (pjoin (vol_path_of sharemnt share_root volmnt dirpath) f) e hnmem herr
    have hstep : file_step
        ⟨env, src, true, dirpath, volmnt, volid,
          vol_path_of sharemnt share_root volmnt dirpath⟩
        { counts := [], size := 0,
          st := initSt st0 (vol_path_of sharemnt share_root volmnt dirpath),
          log := [],
          calls := copy_file_attrs
            (vol_path_of sharemnt share_root volmnt dirpath) "DIR" src.dirStat }
        f
        = Except.error (PyExc.oserror e,
          { counts := bumpCount [] (extOf (pjoin dirpath f)),
            size := 0 + fm.fstat.st_size,
            st := initSt st0 (vol_path_of sharemnt share_root volmnt dirpath),
            log := [⟨LogLevel.info, "os.link error"⟩],
            calls := copy_file_attrs
              (vol_path_of sharemnt share_root volmnt dirpath) "DIR" src.dirStat }) := by
      simp only [file_step, hf]
      rw [fc_reg_link_err_logger _ _ f fm info insts inst e hreg hii hil hlen
        hfind hlink he rfl]
      simp [tallyOf, emit]
    have hloopE : file_loop
        ⟨env, src, true, dirpath, volmnt, volid,
          vol_path_of sharemnt share_root volmnt dirpath⟩
        { counts := [], size := 0,
          st := initSt st0 (vol_path_of sharemnt share_root volmnt dirpath),
          log := [],
          calls := copy_file_attrs
            (vol_path_of sharemnt share_root volmnt dirpath) "DIR" src.dirStat }
        (f :: post)
        = Except.error (PyExc.oserror e,
          { counts := bumpCount [] (extOf (pjoin dirpath f)),
            size := 0 + fm.fstat.st_size,
            st := initSt st0 (vol_path_of sharemnt share_root volmnt dirpath),
            log := [⟨LogLevel.info, "os.link error"⟩],
            calls := copy_file_attrs
              (vol_path_of sharemnt share_root volmnt dirpath) "DIR" src.dirStat }) := by
      have hcons : file_loop
          ⟨env, src, true, dirpath, volmnt, volid,
            vol_path_of sharemnt share_root volmnt dirpath⟩
          { counts := [], size := 0,
            st := initSt st0 (vol_path_of sharemnt share_root volmnt dirpath),
            log := [],
            calls := copy_file_attrs
              (vol_path_of sharemnt share_root volmnt dirpath) "DIR" src.dirStat }
          (f :: post)
          = match file_step
              ⟨env, src, true, dirpath, volmnt, volid,
                vol_path_of sharemnt share_root volmnt dirpath⟩
              { counts := [], size := 0,
                st := initSt st0 (vol_path_of sharemnt share_root volmnt dirpath),
                log := [],
                calls := copy_file_attrs
                  (vol_path_of sharemnt share_root volmnt dirpath) "DIR" src.dirStat }
              f with
            | Except.ok a' => file_loop
                ⟨env, src, true, dirpath, volmnt, volid,
                  vol_path_of sharemnt share_root volmnt dirpath⟩ a' post
            | Except.error e => Except.error e := rfl
      rw [hcons, hstep]
    rw [dd_dir_run env src true dirpath (f :: post) sharemnt share_root volmnt
      volid st0 hdir]
    refine ⟨?_, ?_⟩
    · simp only [hloopE]
    · simp only [hloopE]
      simp
  · intro c acc fn fm' info' insts' inst' rest hf' hreg' hii' hil' hfind' hmem
    have hlen' : ¬ insts'.length < 1 := by
      cases insts' with
      | nil => simp at hfind'
      | cons a t => simp
    have hlink17 := os_link_of_mem c.env acc.st
      (pjoin c.volmnt (String.mk (inst'.path.toList.drop 1)))
      (pjoin c.vol_path fn) hmem
    have hstep17 : file_step c acc fn = Except.ok { acc with
        counts := bumpCount acc.counts (extOf (pjoin c.dirpath fn)),
        size := acc.size + fm'.fstat.st_size,
        log := emit c.logger acc.log LogLevel.error
          "File already exists, skipping os.link" } := by
      simp only [file_step, hf']
      rw [fc_reg_link_exists c (tallyOf c acc fn fm') fn fm' info' insts' inst'
        hreg' hii' hil' hlen' hfind' hlink17]
      simp [tallyOf]
    refine ⟨hstep17, ?_⟩
    have hcons : file_loop c acc (fn :: rest)
        = match file_step c acc fn with
          | Except.ok a' => file_loop c a' rest
          | Except.error e => Except.error e := rfl
    rw [hcons, hstep17]

/-- A context and state for the witness's errno-17 part: the hardlink's
destination already exists. -/
def w17Acc : LoopAcc :=
  { counts := [], size := 0, st := ⟨["/mnt/vol/sr/d/a"]⟩, log := [], calls := [] }

set_option maxRecDepth 8000 in
/-- Witness for C2 (amended), at a concrete directory whose single file's
hardlink fails with errno 13 under a supplied logger, and a concrete
loop state where the destination already exists (errno 17). -/
theorem link_error_reraised_only_with_logger_witness :
    (get_filetype cexSrc.dirStat.st_mode ≠ some "SYMLINK"
      ∧ cexSrc.files "a"
        = some { fstat := ⟨0o100644, 4, 1, 2, 3, 4⟩, inodeInfo := some ⟨some [⟨7, "/x/a"⟩]⟩ }
      ∧ (13 : Nat) ≠ 17)
    ∧ ((deassimilate_dir cexEnv cexSrc true "/mnt/share/d" ["a"] "/mnt/share" "/sr"
          "/mnt/vol" 7 ⟨[]⟩).result = Except.error (PyExc.oserror 13)
      ∧ (⟨LogLevel.info, "os.link error"⟩ : LogEntry)
          ∈ (deassimilate_dir cexEnv cexSrc true "/mnt/share/d" ["a"] "/mnt/share"
              "/sr" "/mnt/vol" 7 ⟨[]⟩).log)
    ∧ (file_step
        ⟨cexEnv, cexSrc, true, "/mnt/share/d", "/mnt/vol", 7, "/mnt/vol/sr/d/"⟩
        w17Acc "a"
        = Except.ok { w17Acc with
            counts := bumpCount [] (extOf (pjoin "/mnt/share/d" "a")),
            size := 0 + (4 : Nat),
            log := emit true [] LogLevel.error
              "File already exists, skipping os.link" }) := by
  refine ⟨⟨by decide, by rfl, by decide⟩, ?_, ?_⟩
  · exact (link_error_reraised_only_with_logger cexEnv cexSrc "/mnt/share/d" "a"
      [] "/mnt/share" "/sr" "/mnt/vol" 7 ⟨[]⟩
      { fstat := ⟨0o100644, 4, 1, 2, 3, 4⟩, inodeInfo := some ⟨some [⟨7, "/x/a"⟩]⟩ }
      ⟨some [⟨7, "/x/a"⟩]⟩ [⟨7, "/x/a"⟩] ⟨7, "/x/a"⟩ 13
      (by decide) (by rfl) (by rfl) rfl rfl (by rfl) (by decide) (by decide)
      rfl (by decide)).1
  · exact ((link_error_reraised_only_with_logger cexEnv cexSrc "/mnt/share/d" "a"
      [] "/mnt/share" "/sr" "/mnt/vol" 7 ⟨[]⟩
      { fstat := ⟨0o100644, 4, 1, 2, 3, 4⟩, inodeInfo := some ⟨some [⟨7, "/x/a"⟩]⟩ }
      ⟨some [⟨7, "/x/a"⟩]⟩ [⟨7, "/x/a"⟩] ⟨7, "/x/a"⟩ 13
      (by decide) (by rfl) (by rfl) rfl rfl (by rfl) (by decide) (by decide)
      rfl (by decide)).2
      ⟨cexEnv, cexSrc, true, "/mnt/share/d", "/mnt/vol", 7, "/mnt/vol/sr/d/"⟩
      w17Acc "a"
      { fstat := ⟨0o100644, 4, 1, 2, 3, 4⟩, inodeInfo := some ⟨some [⟨7, "/x/a"⟩]⟩ }
      ⟨some [⟨7, "/x/a"⟩]⟩ [⟨7, "/x/a"⟩] ⟨7, "/x/a"⟩ []
      (by rfl) (by rfl) rfl rfl (by rfl) (by decide)).1

/- ## C7 — the returned summary's statistics -/

/-- A directory that is itself a symlink, handed a nonempty file list. -/
def c7Src : SourceDir :=
  { dirStat := ⟨0o120777, 0, 1, 2, 3, 4⟩, dirLinkTarget := "/elsewhere",
    files := fun fn =>
      if fn = "a.txt" then some { fstat := ⟨0o100644, 5, 1, 2, 3, 4⟩ } else none }

set_option maxRecDepth 8000 in
/-- Counterexample to C7 as stated: when the directory itself is a symlink
the file loop is skipped entirely, so with a nonempty file list the
returned summary has an empty extension histogram and zero size even
though one passed-in entry bears the suffix `.txt` (only `total_files`
still equals the number of entries). -/
theorem summary_statistics_cex :
    (deassimilate_dir wEnv c7Src true "/mnt/share/d" ["a.txt"] "/mnt/share" "/sr"
        "/mnt/vol" 7 ⟨[]⟩).result
      = Except.ok ⟨"/mnt/share/d", 1, [], 0⟩
    ∧ countOf ([] : List (String × Nat)) (extOf (pjoin "/mnt/share/d" "a.txt")) = 0
    ∧ ((["a.txt"] : List String).filter
        (fun fn => extOf (pjoin "/mnt/share/d" fn)
          = extOf (pjoin "/mnt/share/d" "a.txt"))).length = 1
    ∧ (0 : Nat) ≠ 1 :=
  ⟨by rfl, rfl, by decide, by decide⟩

/-- Claim C7 (amended): for every directory that is not itself a symlink,
a returned summary has `total_files` equal to the number of file entries
passed in, `extension_counts` mapping each lower-cased suffix to the number
of entries bearing it, and `total_size_bytes` equal to the sum of the
entries' `lstat` sizes — every entry tallied via the non-link-following
stat regardless of whether its link creation succeeded or was skipped.
(For a symlink directory the file loop is skipped; see the
counterexample.) -/
theorem summary_statistics_exact (env : OsEnv) (src : SourceDir) (logger : Bool)
    (dirpath : String) (filenames : List String)
    (sharemnt share_root volmnt : String) (volid : Int)
    (st0 : FsState) (s : DirSummary)
    (hdir : get_filetype src.dirStat.st_mode ≠ some "SYMLINK")
    (h : (deassimilate_dir env src logger dirpath filenames sharemnt share_root
        volmnt volid st0).result = Except.ok s) :
    s.total_files = filenames.length
    ∧ (∀ e, countOf s.extension_counts e
        = (filenames.filter (fun fn => extOf (pjoin dirpath fn) = e)).length)
    ∧ s.total_size_bytes
        = (filenames.map (fun fn => match src.files fn with
            | some fm => fm.fstat.st_size
            | none => 0)).sum := by
  rw [dd_dir_run env src logger dirpath filenames sharemnt share_root volmnt
    volid st0 hdir] at h
  cases hlp : file_loop
      ⟨env, src, logger, dirpath, volmnt, volid,
        vol_path_of sharemnt share_root volmnt dirpath⟩
      { counts := [], size := 0,
        st := initSt st0 (vol_path_of sharemnt share_root volmnt dirpath),
        log := [],
        calls := copy_file_attrs
          (vol_path_of sharemnt share_root volmnt dirpath) "DIR" src.dirStat }
      filenames with
  | error p =>
    rcases p with ⟨e, accE⟩
    simp only [hlp] at h
    cases h
  | ok accF =>
    simp only [hlp] at h
    have hs : s = ⟨dirpath, filenames.length, accF.counts, accF.size⟩ :=
      (Except.ok.inj h).symm
    obtain ⟨_, hcount, hsize⟩ := file_loop_ok_props _ filenames _ accF hlp
    subst hs
    refine ⟨rfl, ?_, ?_⟩
    · intro e
      have hc := hcount e
      simpa [countOf] using hc
    · simpa [countOf] using hsize

/-- Witness for C7 (amended) at a concrete one-file directory. -/
theorem summary_statistics_exact_witness :
    (get_filetype wSrc.dirStat.st_mode ≠ some "SYMLINK"
      ∧ (deassimilate_dir wEnv wSrc true "/mnt/share/d" ["a.txt"] "/mnt/share" "/sr"
          "/mnt/vol" 7 ⟨[]⟩).result
        = Except.ok ⟨"/mnt/share/d", 1, [(".txt", 1)], 5⟩)
    ∧ ((⟨"/mnt/share/d", 1, [(".txt", 1)], 5⟩ : DirSummary).total_files
        = (["a.txt"] : List String).length
      ∧ countOf
          (⟨"/mnt/share/d", 1, [(".txt", 1)], 5⟩ : DirSummary).extension_counts
          ".txt"
        = ((["a.txt"] : List String).filter
            (fun fn => extOf (pjoin "/mnt/share/d" fn) = ".txt")).length
      ∧ (⟨"/mnt/share/d", 1, [(".txt", 1)], 5⟩ : DirSummary).total_size_bytes
        = ((["a.txt"] : List String).map (fun fn => match wSrc.files fn with
            | some fm => fm.fstat.st_size
            | none => 0)).sum) := by
  have happ := summary_statistics_exact wEnv wSrc true "/mnt/share/d" ["a.txt"]
    "/mnt/share" "/sr" "/mnt/vol" 7 ⟨[]⟩
    ⟨"/mnt/share/d", 1, [(".txt", 1)], 5⟩ (by decide)
    (by set_option maxRecDepth 8000 in rfl)
  exact ⟨⟨by decide, by set_option maxRecDepth 8000 in rfl⟩,
    happ.1, happ.2.1 ".txt", happ.2.2⟩

end Deassim
